import Mathlib

/-!
Verification model of the vartui session state machine and its MCP
automation surface.  Every definition below is a shallow embedding of the
corresponding Rust item (file and function named in its doc comment).
Rust `f32` values (entry hours) are modelled as `Rat`; machine integers
(`i32`, `u64`) are modelled as `Int`/`Nat` with explicit range checks at
the parsing boundary, which is the only place overflow is observable in
the modelled code.  Environment access, the HTTP client and the toon
encoder are external collaborators: they enter the model as explicit
parameters (an `Env` record, `Except`-valued call results, an abstract
encoder function).
-/

namespace Vartui

/-- `src/domain/models.rs`: `Project { id, name, client_name }` (`id: i32`). -/
structure Project where
  id : Int
  name : String
  client_name : String
deriving Repr, DecidableEq

/-- `src/domain/models.rs`: `Entry { project, hours, note }` (`hours: f32`, modelled as `Rat`). -/
structure Entry where
  project : String
  hours : Rat
  note : String
deriving Repr, DecidableEq

/-- `src/domain/models.rs`: `Day { date, entries }`. -/
structure Day where
  date : String
  entries : List Entry
deriving Repr, DecidableEq

/-- `src/domain/models.rs`: `Day::total_hours` — sum of entry hours. -/
def Day.total_hours (d : Day) : Rat :=
  d.entries.foldl (fun acc e => acc + e.hours) 0

/-- `src/domain/models.rs`: `DateRange { start, end }` (both date strings). -/
structure DateRange where
  start : String
  stop : String
deriving Repr, DecidableEq

/-- `src/domain/models.rs`: `DateRange::label` — `"start..end"`. -/
def DateRange.label (r : DateRange) : String :=
  r.start ++ ".." ++ r.stop

/-- `src/domain/config.rs`: `AppConfig` (theme is opaque to the core). -/
structure AppConfig where
  var_token : String
  base_url : String
  default_date_range : Option String
  theme : String
deriving Repr, DecidableEq

/-- `src/domain/config.rs`: `AppConfig::default()`. -/
def AppConfig.default : AppConfig :=
  { var_token := ""
    base_url := "https://var.elaniin.com/api"
    default_date_range := none
    theme := "tokyo-night" }

/-- Process environment as seen through `std::env::var`: `none` models a
missing/invalid variable (`env::var` returning `Err`). -/
structure Env where
  var_token : Option String
  var_base_url : Option String
deriving Repr, DecidableEq

/-- `src/application/app.rs`: `const API_BASE`. -/
def API_BASE : String := "https://var.elaniin.com/api"

/-! ## Rust string primitives

Models of the `str`/`String` operations the sources use, written over the
character list so that every definition evaluates inside the kernel.
Unicode-aware case mapping and whitespace classes are modelled at ASCII,
which covers every string the modelled code manipulates. -/

/-- Rust `char::is_whitespace` at ASCII. -/
def isWhitespaceChar (c : Char) : Bool :=
  c = ' ' ∨ c = '\t' ∨ c = '\n' ∨ c = '\r'

/-- Rust `str::trim`. -/
def strTrim (s : String) : String :=
  String.mk (((s.data.dropWhile isWhitespaceChar).reverse.dropWhile
    isWhitespaceChar).reverse)

/-- Rust `char::to_uppercase` at ASCII. -/
def charUp (c : Char) : Char :=
  if 'a' ≤ c ∧ c ≤ 'z' then Char.ofNat (c.toNat - 32) else c

/-- Rust `char::to_lowercase` at ASCII. -/
def charDown (c : Char) : Char :=
  if 'A' ≤ c ∧ c ≤ 'Z' then Char.ofNat (c.toNat + 32) else c

/-- Rust `str::to_uppercase` at ASCII. -/
def strToUpper (s : String) : String := String.mk (s.data.map charUp)

/-- Rust `str::to_lowercase` at ASCII. -/
def strToLower (s : String) : String := String.mk (s.data.map charDown)

/-- Rust `str::contains(char)`. -/
def strContainsChar (s : String) (c : Char) : Bool := s.data.contains c

/-- Splitting on a non-empty separator, left to right, keeping empty
pieces (Rust `str::split(&str)` / Lean `String.splitOn` semantics); the
fuel is the character count, which one piece always consumes. -/
def splitOnAuxF (sep : List Char) : Nat → List Char → List Char → List (List Char)
  | _, [], acc => [acc.reverse]
  | 0, cs, acc => [acc.reverse ++ cs]
  | fuel + 1, c :: rest, acc =>
    if sep.isPrefixOf (c :: rest) then
      acc.reverse :: splitOnAuxF sep fuel ((c :: rest).drop sep.length) []
    else splitOnAuxF sep fuel rest (c :: acc)

/-- Rust `str::split` collected into a list. -/
def strSplitOn (s sep : String) : List String :=
  (splitOnAuxF sep.data s.data.length s.data []).map String.mk

/-- Rust `str::replace` — every non-overlapping occurrence of `pat`
becomes the replacement. -/
def strReplace (s pat repl : String) : String :=
  String.intercalate repl (strSplitOn s pat)

/-- Rust `str::ends_with(&str)`. -/
def strEndsWith (s suffix : String) : Bool :=
  suffix.data.isSuffixOf s.data

/-! ## Integer parsing (Rust `str::parse`) -/

/-- All-digit string to `Nat`; `none` on empty input or a non-digit. -/
def parseDigits : List Char → Option Nat
  | [] => none
  | cs => cs.foldl
      (fun acc c =>
        match acc with
        | none => none
        | some n => if c.isDigit then some (n * 10 + (c.toNat - 48)) else none)
      (some 0)

/-- Rust `str::parse::<i32>()`: optional sign, at least one digit, nothing
else, result within `i32` bounds. -/
def parseI32 (s : String) : Option Int :=
  match s.data with
  | [] => none
  | c :: rest =>
    let signDigits : Int × List Char :=
      if c = '-' then (-1, rest) else if c = '+' then (1, rest) else (1, s.data)
    match parseDigits signDigits.2 with
    | none => none
    | some n =>
      let v : Int := signDigits.1 * (n : Int)
      if -2147483648 ≤ v ∧ v ≤ 2147483647 then some v else none

/-- Rust `str::parse::<u64>()`: optional `+`, at least one digit, nothing
else, result below `2^64`. -/
def parseU64 (s : String) : Option Nat :=
  match s.data with
  | [] => none
  | c :: rest =>
    let digits := if c = '+' then rest else s.data
    match parseDigits digits with
    | none => none
    | some n => if n < 18446744073709551616 then some n else none

/-! ## Minutes-text parsing (`App::submit_entry`, src/application/app.rs) -/

/-- The minutes computation inside `App::submit_entry`: `H:MM` via a
2-way split on `:` with `parse().unwrap_or(0)` on the trimmed halves,
otherwise the whole text as an integer with `unwrap_or(0)`. -/
def parseMinutes (m_str : String) : Int :=
  if strContainsChar m_str ':' then
    match strSplitOn m_str ":" with
    | [h, m] => (parseI32 (strTrim h)).getD 0 * 60 + (parseI32 (strTrim m)).getD 0
    | _ => 0
  else
    (parseI32 m_str).getD 0

/-! ## Dates (`src/utils/parsing.rs`, chrono `NaiveDate` at the formats used) -/

/-- Calendar date, standing in for `chrono::NaiveDate`. -/
structure YMD where
  y : Nat
  m : Nat
  d : Nat
deriving Repr, DecidableEq

/-- Gregorian leap year. -/
def isLeap (y : Nat) : Bool :=
  y % 4 = 0 && (y % 100 ≠ 0 || y % 400 = 0)

/-- Days in a month of a given year. -/
def daysInMonth (y m : Nat) : Nat :=
  if m = 2 then (if isLeap y then 29 else 28)
  else if m = 4 ∨ m = 6 ∨ m = 9 ∨ m = 11 then 30
  else 31

/-- Calendar validity, as `chrono` enforces when parsing. -/
def validYMD (date : YMD) : Bool :=
  1 ≤ date.m && date.m ≤ 12 && 1 ≤ date.d && date.d ≤ daysInMonth date.y date.m

/-- One numeric field of a date string. -/
def parseField (s : String) : Option Nat := parseDigits s.data

/-- Year-month-day split on a separator (chrono formats `%Y-%m-%d`, `%Y/%m/%d`). -/
def parseYMDSep (s sep : String) : Option YMD :=
  match strSplitOn s sep with
  | [a, b, c] =>
    match parseField a, parseField b, parseField c with
    | some y, some m, some d =>
      let date : YMD := ⟨y, m, d⟩
      if validYMD date then some date else none
    | _, _, _ => none
  | _ => none

/-- Day-month-year split on a separator (chrono formats `%d-%m-%Y`, `%d/%m/%Y`). -/
def parseDMYSep (s sep : String) : Option YMD :=
  match strSplitOn s sep with
  | [a, b, c] =>
    match parseField a, parseField b, parseField c with
    | some d, some m, some y =>
      let date : YMD := ⟨y, m, d⟩
      if validYMD date then some date else none
    | _, _, _ => none
  | _ => none

/-- `src/utils/parsing.rs`: `parse_date` — the four chrono formats tried in
order (`%Y-%m-%d`, `%Y/%m/%d`, `%d-%m-%Y`, `%d/%m/%Y`). -/
def parse_date (s : String) : Option YMD :=
  (parseYMDSep s "-").orElse fun _ =>
    (parseYMDSep s "/").orElse fun _ =>
      (parseDMYSep s "-").orElse fun _ =>
        parseDMYSep s "/"

/-- Zero-pad a natural to at least two digits (Rust `{:02}`). -/
def pad2 (n : Nat) : String :=
  if n < 10 then "0" ++ toString n else toString n

/-- Zero-pad a year to at least four digits (chrono `%Y` formatting). -/
def pad4 (n : Nat) : String :=
  if n < 10 then "000" ++ toString n
  else if n < 100 then "00" ++ toString n
  else if n < 1000 then "0" ++ toString n
  else toString n

/-- chrono `format("%Y-%m-%d")`. -/
def fmtDate (date : YMD) : String :=
  pad4 date.y ++ "-" ++ pad2 date.m ++ "-" ++ pad2 date.d

/-- Next calendar day (`current += Duration::days(1)` on a valid date). -/
def dateSucc (date : YMD) : YMD :=
  if date.d < daysInMonth date.y date.m then ⟨date.y, date.m, date.d + 1⟩
  else if date.m < 12 then ⟨date.y, date.m + 1, 1⟩
  else ⟨date.y + 1, 1, 1⟩

/-- Calendar order on dates (`current <= end`). -/
def dateLe (a b : YMD) : Bool :=
  a.y < b.y || (a.y = b.y && (a.m < b.m || (a.m = b.m && a.d ≤ b.d)))

/-- Day number of a valid date (proleptic Gregorian); used only to bound
the `build_range_days` loop. -/
def rataDie (date : YMD) : Nat :=
  let pm : Nat :=
    [0, 31, 59, 90, 120, 151, 181, 212, 243, 273, 304, 334].getD (date.m - 1) 0
  let leapAdd : Nat := if 2 < date.m ∧ isLeap date.y then 1 else 0
  365 * (date.y - 1) + (date.y - 1) / 4 - (date.y - 1) / 100 + (date.y - 1) / 400
    + pm + leapAdd + date.d

/-! ## Day-list construction (`src/utils/parsing.rs`) -/

/-- Rust `Ord` on strings is lexicographic byte order; on the ASCII date
keys compared here, code-point order over the characters is the same
relation. -/
def charListLt : List Char → List Char → Bool
  | [], [] => false
  | [], _ :: _ => true
  | _ :: _, [] => false
  | a :: as, b :: bs =>
    if a.toNat < b.toNat then true
    else if b.toNat < a.toNat then false
    else charListLt as bs

/-- `b.date.cmp(&a.date) == Less` as a Bool. -/
def strLt (a b : String) : Bool := charListLt a.data b.data

/-- Stable insert for descending sort by date. -/
def insertDescByDate (x : Day) : List Day → List Day
  | [] => [x]
  | y :: ys => if strLt y.date x.date then x :: y :: ys else y :: insertDescByDate x ys

/-- `days.sort_by(|a, b| b.date.cmp(&a.date))` — stable descending sort. -/
def sortDescByDate (l : List Day) : List Day :=
  l.foldl (fun acc x => insertDescByDate x acc) []

/-- Assoc-list view of the `HashMap<String, Vec<Entry>>` grouping. -/
def Grouped := List (String × List Entry)

/-- `HashMap::remove` returning the removed value and the shrunk map. -/
def groupedRemove (g : List (String × List Entry)) (key : String) :
    Option (List Entry) × List (String × List Entry) :=
  match g.find? (fun kv => kv.1 = key) with
  | some kv => (some kv.2, g.filter (fun kv' => kv'.1 ≠ key))
  | none => (none, g)

/-- Loop body of `build_range_days`: one `Day` per date in
`[current, end]`, entries taken from the grouping; `fuel` bounds the
iteration count (instantiated with the exact day distance). -/
def buildRangeDaysAux (g : List (String × List Entry)) (current stop : YMD) :
    Nat → List Day
  | 0 => []
  | fuel + 1 =>
    if dateLe current stop then
      let key := fmtDate current
      let rm := groupedRemove g key
      ⟨key, rm.1.getD []⟩ :: buildRangeDaysAux rm.2 (dateSucc current) stop fuel
    else []

/-- `src/utils/parsing.rs`: `build_range_days` — materialize every date of
the range, then sort descending. -/
def build_range_days (g : List (String × List Entry)) (start stop : YMD) : List Day :=
  sortDescByDate (buildRangeDaysAux g start stop (rataDie stop + 1 - rataDie start))

/-- `src/utils/parsing.rs`: `build_empty_days`. -/
def build_empty_days (range : DateRange) : List Day :=
  match parse_date range.start, parse_date range.stop with
  | some s, some e => build_range_days [] s e
  | _, _ => []

/-- `src/utils/parsing.rs`: `initial_date_range` — current month-to-date;
`today` models `Local::now().date_naive()`. -/
def initial_date_range (today : YMD) : DateRange :=
  let start := if validYMD ⟨today.y, today.m, 1⟩ then YMD.mk today.y today.m 1 else today
  { start := fmtDate start, stop := fmtDate today }

/-- Monday-based weekday offset (`weekday().num_days_from_monday()`),
via the rata-die day number (day 1 of year 1 is a Monday in the proleptic
Gregorian calendar). -/
def daysFromMonday (date : YMD) : Nat :=
  (rataDie date + 6) % 7

/-- `today - Duration::days(weekday)` for the week keyword. -/
def backDays (date : YMD) : Nat → YMD
  | 0 => date
  | n + 1 =>
    let prev :=
      if date.d > 1 then YMD.mk date.y date.m (date.d - 1)
      else if date.m > 1 then YMD.mk date.y (date.m - 1) (daysInMonth date.y (date.m - 1))
      else YMD.mk (date.y - 1) 12 31
    backDays prev n

/-- `src/utils/parsing.rs`: `parse_date_range` — AUTO keywords, then the
`start..end` form with both halves validated by `parse_date`. -/
def parse_date_range (today : YMD) (input : String) : Except String DateRange :=
  let kw := strToUpper (strTrim input)
  if kw = "AUTO" ∨ kw = "AUTO-MONTH" ∨ kw = "MONTH" then
    let start := if validYMD ⟨today.y, today.m, 1⟩ then YMD.mk today.y today.m 1 else today
    .ok { start := fmtDate start, stop := fmtDate today }
  else if kw = "AUTO-WEEK" ∨ kw = "WEEK" then
    let start := backDays today (daysFromMonday today)
    .ok { start := fmtDate start, stop := fmtDate today }
  else
    match strSplitOn input ".." with
    | [a, b] =>
      let start_str := strTrim a
      let end_str := strTrim b
      if (parse_date start_str).isNone then
        .error ("Fecha inicio invalida: " ++ start_str)
      else if (parse_date end_str).isNone then
        .error ("Fecha fin invalida: " ++ end_str)
      else
        .ok { start := start_str, stop := end_str }
    | _ =>
      .error "Formato incorrecto. Use YYYY-MM-DD..YYYY-MM-DD, AUTO, AUTO-WEEK, o AUTO-MONTH"

/-! ## Credential resolution (`src/application/app.rs`) -/

/-- `env::var(..).replace('"', "").trim()` applied to an environment value. -/
def envStrip (s : String) : String :=
  strTrim (strReplace s "\"" "")

/-- `if base_url.ends_with('/') { base_url.pop(); }` — one trailing slash. -/
def stripSlashOnce (s : String) : String :=
  if strEndsWith s "/" then s.dropRight 1 else s

/-- `App::get_effective_token`: prefer non-empty configured token, else
quote-stripped trimmed `VAR_TOKEN`. -/
def get_effective_token (config : AppConfig) (env : Env) : String :=
  if config.var_token ≠ "" then config.var_token
  else envStrip (env.var_token.getD "")

/-- `VAR_BASE_URL` fallback chain shared by `get_effective_base_url`,
`spawn_load`, `spawn_load_projects` and `submit_entry`:
`.ok().map(strip).filter(non-empty).unwrap_or(API_BASE)`. -/
def envBaseUrl (env : Env) : String :=
  match env.var_base_url with
  | some v => let v' := envStrip v; if v' = "" then API_BASE else v'
  | none => API_BASE

/-- `App::get_effective_base_url`: prefer the configured base URL when it
is non-empty and differs from the hardcoded default, else the environment
fallback chain. -/
def get_effective_base_url (config : AppConfig) (env : Env) : String :=
  if config.base_url ≠ "" ∧ config.base_url ≠ "https://var.elaniin.com/api" then
    config.base_url
  else envBaseUrl env

/-- Token/base-url pair computed inline by `spawn_load` (and identically by
`spawn_load_projects`) before starting the worker thread. -/
def spawnLoadCreds (config : AppConfig) (env : Env) : String × String :=
  let token :=
    if config.var_token ≠ "" then config.var_token
    else envStrip (env.var_token.getD "")
  let base_url :=
    if config.base_url ≠ "" ∧ config.base_url ≠ "https://var.elaniin.com/api" then
      config.base_url
    else envBaseUrl env
  (token, stripSlashOnce base_url)

/-- Token/base-url pair computed inline by `App::submit_entry` (lines
582-594): environment variables only — the configured values are not
consulted on this path. -/
def submitCreds (env : Env) : String × String :=
  let token := envStrip (env.var_token.getD "")
  let base_url := envBaseUrl env
  (token, stripSlashOnce base_url)

/-! ## Session state machine (`src/application/app.rs`) -/

/-- `InputMode`. -/
inductive InputMode
  | Normal
  | Editing
  | AddingEntry
  | Configuring
deriving Repr, DecidableEq

/-- `AppFocus`. -/
inductive AppFocus
  | Days
  | Entries
deriving Repr, DecidableEq

/-- `FormField`. -/
inductive FormField
  | Date
  | ProjectId
  | Description
  | Minutes
  | Billable
deriving Repr, DecidableEq

/-- `ConfigField` (the variant set used across `app.rs` and `mcp.rs`;
`Theme` is addressed only by the MCP field table). -/
inductive ConfigField
  | Token
  | BaseUrl
  | DefaultRange
  | Theme
deriving Repr, DecidableEq

/-- `EntryForm`; `ratatui` `ListState` is its selected index. -/
structure EntryForm where
  date : String
  description : String
  minutes : String
  is_billable : Bool
  focused : FormField
  project_search : String
  filtered_indices : List Nat
  list_state : Option Nat
  selected_project : Option Project
deriving Repr, DecidableEq

/-- `EntryForm::new`. -/
def EntryForm.new (default_date : String) : EntryForm :=
  { date := default_date
    description := ""
    minutes := ""
    is_billable := true
    focused := .Date
    project_search := ""
    filtered_indices := []
    list_state := none
    selected_project := none }

/-- Truncation toward zero of `minutes / 60` inputs is not needed here:
`with_entry_data` takes an already-integral minute count. -/
def EntryForm.with_entry_data (date project_name description : String)
    (minutes : Int) (is_billable : Bool) : EntryForm :=
  let hours := minutes / 60
  let mins := minutes % 60
  { date := date
    description := description
    minutes := pad2 hours.toNat ++ ":" ++ pad2 mins.toNat
    is_billable := is_billable
    focused := .Description
    project_search := project_name
    filtered_indices := []
    list_state := none
    selected_project := none }

/-- `EntryForm::next_field`. -/
def FormField.next_field (f : FormField) : FormField :=
  match f with
  | .Date => .ProjectId
  | .ProjectId => .Description
  | .Description => .Minutes
  | .Minutes => .Billable
  | .Billable => .Date

/-- `EntryForm::prev_field`. -/
def FormField.prev_field (f : FormField) : FormField :=
  match f with
  | .Date => .Billable
  | .ProjectId => .Date
  | .Description => .ProjectId
  | .Minutes => .Description
  | .Billable => .Minutes

/-- `ConfigForm` (`theme` is read by the MCP snapshot/field code). -/
structure ConfigForm where
  token : String
  base_url : String
  default_range : String
  theme : String
  focused : ConfigField
deriving Repr, DecidableEq

/-- The `App` state.  The two completion channels (`rx`, `rx_projects`)
are not stored: polling is modelled by passing the ready result, if any,
to `check_background_load` directly. -/
structure App where
  days : List Day
  day_state : Option Nat
  entry_state : Option Nat
  focus : AppFocus
  status : String
  date_range : DateRange
  input_mode : InputMode
  input : String
  entry_form : Option EntryForm
  projects : List Project
  config : AppConfig
  config_form : Option ConfigForm
deriving Repr, DecidableEq

/-- Arguments of one `ApiClient::create_time_entry` invocation, together
with the token/base-url handed to `ApiClient::new` for it. -/
structure CreateCall where
  date : String
  project_id : Int
  description : String
  minutes : Int
  is_billable : Bool
  token : String
  base_url : String
deriving Repr, DecidableEq

namespace App

/-- `App::set_days`. -/
def set_days (app : App) (days : List Day) : App :=
  if days.isEmpty then
    { app with days := days, day_state := none }
  else
    let idx := min (app.day_state.getD 0) (days.length - 1)
    { app with days := days, day_state := some idx }

/-- `App::new` (headless slice: the two initial fetches are started but
their channels are not stored; `today` models `Local::now`). -/
def new (config : AppConfig) (today : YMD) : App :=
  let range0 := initial_date_range today
  let range :=
    match config.default_date_range with
    | some s =>
      match parse_date_range today s with
      | .ok r => r
      | .error _ => range0
    | none => range0
  let days := build_empty_days range
  let app : App :=
    { days := days
      day_state := none
      entry_state := none
      focus := .Days
      status := "cargando..."
      date_range := range
      input_mode := .Normal
      input := ""
      entry_form := none
      projects := []
      config := config
      config_form := none }
  if app.days.isEmpty then app else { app with day_state := some 0 }

/-- `App::selected_day`. -/
def selected_day (app : App) : Option Day :=
  app.day_state.bind fun idx => app.days[idx]?

/-- `App::next_day`. -/
def next_day (app : App) : App :=
  if app.days.isEmpty then app
  else
    let next :=
      match app.day_state with
      | some idx => if idx + 1 < app.days.length then idx + 1 else 0
      | none => 0
    { app with day_state := some next }

/-- `App::previous_day`. -/
def previous_day (app : App) : App :=
  if app.days.isEmpty then app
  else
    let prev :=
      match app.day_state with
      | none => app.days.length - 1
      | some 0 => app.days.length - 1
      | some (idx + 1) => idx
    { app with day_state := some prev }

/-- `App::focus_entries`. -/
def focus_entries (app : App) : App :=
  match app.selected_day with
  | some day =>
    if day.entries.isEmpty then app
    else { app with focus := .Entries, entry_state := some 0 }
  | none => app

/-- `App::focus_days`. -/
def focus_days (app : App) : App :=
  { app with focus := .Days, entry_state := none }

/-- `App::next_entry`. -/
def next_entry (app : App) : App :=
  match app.selected_day with
  | some day =>
    if day.entries.isEmpty then app
    else
      let next :=
        match app.entry_state with
        | some idx => if idx + 1 < day.entries.length then idx + 1 else 0
        | none => 0
      { app with entry_state := some next }
  | none => app

/-- `App::previous_entry`. -/
def previous_entry (app : App) : App :=
  match app.selected_day with
  | some day =>
    if day.entries.isEmpty then app
    else
      let prev :=
        match app.entry_state with
        | none => day.entries.length - 1
        | some 0 => day.entries.length - 1
        | some (idx + 1) => idx
      { app with entry_state := some prev }
  | none => app

/-- `App::selected_entry`. -/
def selected_entry (app : App) : Option Entry :=
  app.selected_day.bind fun day =>
    app.entry_state.bind fun idx => day.entries[idx]?

/-- `App::refresh` (spawns a day fetch; only the status mutation is
state-visible here). -/
def refresh (app : App) : App :=
  { app with status := "actualizando..." }

/-- `App::start_input`. -/
def start_input (app : App) : App :=
  { app with
      input_mode := .Editing
      input := app.date_range.start ++ ".." ++ app.date_range.stop }

/-- `App::cancel_input`. -/
def cancel_input (app : App) : App :=
  { app with input_mode := .Normal, input := "" }

/-- `App::submit_input`. -/
def submit_input (today : YMD) (app : App) : App :=
  match parse_date_range today app.input with
  | .ok range =>
    let app := { app with date_range := range, input_mode := .Normal, input := "" }
    (app.set_days (build_empty_days range)).refresh
  | .error e => { app with status := "estado: " ++ e }

/-- `App::input_push` (`len()` is the byte length). -/
def input_push (app : App) (value : Char) : App :=
  if value.toNat ≤ 127 ∧ app.input.utf8ByteSize < 64 then
    { app with input := app.input.push value }
  else app

/-- `App::input_backspace` (`String::pop`). -/
def input_backspace (app : App) : App :=
  { app with input := app.input.dropRight 1 }

/-- `App::check_background_load`: one non-blocking poll of both channels;
`day_res`/`proj_res` carry the result when the corresponding channel has
one ready (`none` models `TryRecvError::Empty` or no channel). -/
def check_background_load (day_res : Option (List Day × String))
    (proj_res : Option (Except String (List Project))) (app : App) : App :=
  let app :=
    match day_res with
    | some (days, st) => { app.set_days days with status := st }
    | none => app
  match proj_res with
  | some (.ok projects) =>
    { app with
        projects := projects
        status := "proyectos cargados: " ++ toString projects.length }
  | some (.error e) => { app with status := "error proyectos: " ++ e }
  | none => app

/-- Rust `str::contains(&query)` — substring test. -/
def containsSubstr (haystack needle : String) : Bool :=
  (List.range (haystack.data.length + 1)).any fun i =>
    needle.data.isPrefixOf (haystack.data.drop i)

/-- `App::update_project_filter` (case-insensitive substring match on the
project name; ASCII lowercasing stands in for `to_lowercase`). -/
def update_project_filter (app : App) : App :=
  match app.entry_form with
  | none => app
  | some form =>
    let query := strToLower form.project_search
    let filtered :=
      if query = "" then
        (List.range app.projects.length).take 20
      else
        ((List.range app.projects.length).filter fun i =>
            match app.projects[i]? with
            | some p => containsSubstr (strToLower p.name) query
            | none => false).take 20
    let form :=
      { form with
          filtered_indices := filtered
          list_state := if filtered.isEmpty then none else some 0 }
    { app with entry_form := some form }

/-- `App::open_add_entry` (`today` models `Local::now` formatting). -/
def open_add_entry (today : String) (app : App) : App :=
  let default_date :=
    match app.selected_day with
    | some day => day.date
    | none => today
  ({ app with
      entry_form := some (EntryForm.new default_date)
      input_mode := .AddingEntry }).update_project_filter

/-- `App::close_add_entry`. -/
def close_add_entry (app : App) : App :=
  { app with entry_form := none, input_mode := .Normal }

/-- `App::form_next_field`. -/
def form_next_field (app : App) : App :=
  match app.entry_form with
  | some form => { app with entry_form := some { form with focused := form.focused.next_field } }
  | none => app

/-- `App::form_prev_field`. -/
def form_prev_field (app : App) : App :=
  match app.entry_form with
  | some form => { app with entry_form := some { form with focused := form.focused.prev_field } }
  | none => app

/-- `App::form_input_push`. -/
def form_input_push (app : App) (ch : Char) : App :=
  match app.entry_form with
  | none => app
  | some form =>
    match form.focused with
    | .Date => { app with entry_form := some { form with date := form.date.push ch } }
    | .ProjectId =>
      ({ app with
          entry_form := some { form with project_search := form.project_search.push ch }
        }).update_project_filter
    | .Description =>
      { app with entry_form := some { form with description := form.description.push ch } }
    | .Minutes => { app with entry_form := some { form with minutes := form.minutes.push ch } }
    | .Billable =>
      if ch = ' ' then
        { app with entry_form := some { form with is_billable := !form.is_billable } }
      else app

/-- `App::form_input_backspace`. -/
def form_input_backspace (app : App) : App :=
  match app.entry_form with
  | none => app
  | some form =>
    match form.focused with
    | .Date => { app with entry_form := some { form with date := form.date.dropRight 1 } }
    | .ProjectId =>
      ({ app with
          entry_form := some { form with project_search := form.project_search.dropRight 1 }
        }).update_project_filter
    | .Description =>
      { app with entry_form := some { form with description := form.description.dropRight 1 } }
    | .Minutes =>
      { app with entry_form := some { form with minutes := form.minutes.dropRight 1 } }
    | .Billable => app

/-- `App::form_nav_up`. -/
def form_nav_up (app : App) : App :=
  match app.entry_form with
  | none => app
  | some form =>
    if form.focused = .ProjectId ∧ ¬form.filtered_indices.isEmpty then
      let i := form.list_state.getD 0
      if i > 0 then { app with entry_form := some { form with list_state := some (i - 1) } }
      else app
    else app

/-- `App::form_nav_down`. -/
def form_nav_down (app : App) : App :=
  match app.entry_form with
  | none => app
  | some form =>
    if form.focused = .ProjectId ∧ ¬form.filtered_indices.isEmpty then
      let i := form.list_state.getD 0
      if i + 1 < form.filtered_indices.length then
        { app with entry_form := some { form with list_state := some (i + 1) } }
      else app
    else app

/-- `App::submit_entry`.  `client_res` models `ApiClient::new` and
`create_res` models `create_time_entry`; the returned `Option CreateCall`
records the remote create invocation, if one was issued. -/
def submit_entry (env : Env) (client_res : Except String Unit)
    (create_res : Except String Unit) (app : App) : App × Option CreateCall :=
  match app.entry_form with
  | none => (app, none)
  | some form =>
    let p_id : Int :=
      match form.selected_project with
      | some p => p.id
      | none => (parseI32 form.project_search).getD 0
    if form.date = "" ∨ p_id = 0 ∨ form.description = "" ∨ form.minutes = "" then
      ({ app with status := "error: campos vacios o proyecto invalido" }, none)
    else
      let minutes := parseMinutes form.minutes
      if minutes = 0 then
        ({ app with status := "error: tiempo invalido (0 o formato incorrecto)" }, none)
      else
        let app := { app with status := "creando registro..." }
        let creds := submitCreds env
        match client_res with
        | .error e => ({ app with status := "error cliente: " ++ e }, none)
        | .ok _ =>
          let call : CreateCall :=
            { date := form.date
              project_id := p_id
              description := form.description
              minutes := minutes
              is_billable := form.is_billable
              token := creds.1
              base_url := creds.2 }
          match create_res with
          | .ok _ =>
            (({ app.close_add_entry with status := "registro creado!" }).refresh, some call)
          | .error e => ({ app with status := "error crear: " ++ e }, some call)

/-- `App::form_enter`. -/
def form_enter (env : Env) (client_res create_res : Except String Unit)
    (app : App) : App × Option CreateCall :=
  match app.entry_form with
  | none => (app, none)
  | some form =>
    let picked : Option Project :=
      if form.focused = .ProjectId then
        form.list_state.bind fun idx =>
          (form.filtered_indices[idx]?).bind fun project_idx =>
            app.projects[project_idx]?
      else none
    match picked with
    | some project =>
      ({ app with
          entry_form := some
            { form with
                selected_project := some project
                project_search := project.name
                filtered_indices := []
                focused := form.focused.next_field } }, none)
    | none =>
      if form.focused = .Billable then app.submit_entry env client_res create_res
      else (app.form_next_field, none)

/-- `App::open_duplicate_entry` (`(entry.hours * 60.0) as i32` truncates
toward zero). -/
def open_duplicate_entry (app : App) : App :=
  if app.focus ≠ .Entries then app
  else
    match app.selected_day with
    | none => app
    | some day =>
      match app.entry_state.bind fun idx => day.entries[idx]? with
      | none => app
      | some entry =>
        let mins : Int :=
          let q := entry.hours * 60
          if q < 0 then -((-q).floor) else q.floor
        ({ app with
            entry_form := some
              (EntryForm.with_entry_data day.date entry.project entry.note mins true)
            input_mode := .AddingEntry }).update_project_filter

/-- `App::open_config`. -/
def open_config (env : Env) (app : App) : App :=
  { app with
      config_form := some
        { token := get_effective_token app.config env
          base_url := get_effective_base_url app.config env
          default_range := app.config.default_date_range.getD ""
          theme := app.config.theme
          focused := .Token }
      input_mode := .Configuring
      status := "Configurando..." }

/-- `App::close_config`. -/
def close_config (app : App) : App :=
  { app with config_form := none, input_mode := .Normal, status := "Cancelado" }

/-- `App::save_config_form` (`save_res` models `save_config`). -/
def save_config_form (today : YMD) (save_res : Except String Unit) (app : App) : App :=
  match app.config_form with
  | none => app
  | some form =>
    let dr := strTrim form.default_range
    let new_config : AppConfig :=
      { app.config with
          var_token := strTrim form.token
          base_url := strTrim form.base_url
          default_date_range := if dr = "" then none else some dr }
    match save_res with
    | .ok _ =>
      let app := { app with config := new_config }
      let app :=
        match new_config.default_date_range with
        | some range_str =>
          match parse_date_range today range_str with
          | .ok r => ({ app with date_range := r }).set_days (build_empty_days r)
          | .error _ => app
        | none => app
      ({ app with
          status := "Configuracion guardada!"
          config_form := none
          input_mode := .Normal }).refresh
    | .error e => { app with status := "Error guardando: " ++ e }

/-- `App::config_next_field` (cycle over the three stored text fields). -/
def config_next_field (app : App) : App :=
  match app.config_form with
  | none => app
  | some form =>
    let f :=
      match form.focused with
      | .Token => ConfigField.BaseUrl
      | .BaseUrl => ConfigField.DefaultRange
      | .DefaultRange => ConfigField.Token
      | .Theme => ConfigField.Theme
    { app with config_form := some { form with focused := f } }

/-- `App::config_input`. -/
def config_input (app : App) (ch : Char) : App :=
  match app.config_form with
  | none => app
  | some form =>
    let form :=
      match form.focused with
      | .Token => { form with token := form.token.push ch }
      | .BaseUrl => { form with base_url := form.base_url.push ch }
      | .DefaultRange => { form with default_range := form.default_range.push ch }
      | .Theme => form
    { app with config_form := some form }

/-- `App::config_backspace`. -/
def config_backspace (app : App) : App :=
  match app.config_form with
  | none => app
  | some form =>
    let form :=
      match form.focused with
      | .Token => { form with token := form.token.dropRight 1 }
      | .BaseUrl => { form with base_url := form.base_url.dropRight 1 }
      | .DefaultRange => { form with default_range := form.default_range.dropRight 1 }
      | .Theme => form
    { app with config_form := some form }

/-- `App::config_clear_field`. -/
def config_clear_field (app : App) : App :=
  match app.config_form with
  | none => app
  | some form =>
    let form :=
      match form.focused with
      | .Token => { form with token := "" }
      | .BaseUrl => { form with base_url := "" }
      | .DefaultRange => { form with default_range := "" }
      | .Theme => form
    { app with config_form := some form }

end App

/-! ## MCP automation server (`src/application/mcp.rs`) -/

/-- `serde_json::Value` (numbers split into the integer and float cases
`serde_json` distinguishes; floats as `Rat`). -/
inductive JValue
  | null
  | bool (b : Bool)
  | int (n : Int)
  | float (q : Rat)
  | str (s : String)
  | arr (items : List JValue)
  | obj (fields : List (String × JValue))

/-- Object entry lookup (`Map::get`). -/
def jGet (v : JValue) (key : String) : Option JValue :=
  match v with
  | .obj fields => (fields.find? fun kv => kv.1 = key).map (·.2)
  | _ => none

/-- `Map::insert`: replace an existing key in place, else append. -/
def jInsert (v : JValue) (key : String) (value : JValue) : JValue :=
  match v with
  | .obj fields =>
    if fields.any fun kv => kv.1 = key then
      .obj (fields.map fun kv => if kv.1 = key then (key, value) else kv)
    else .obj (fields ++ [(key, value)])
  | other => other

/-- `arg(args, keys)` — first key present wins (long key listed first by
every caller). -/
def arg (args : List (String × JValue)) (keys : List String) : Option JValue :=
  match keys with
  | [] => none
  | k :: rest =>
    match (args.find? fun kv => kv.1 = k).map (·.2) with
    | some v => some v
    | none => arg args rest

/-- `parse_string_value`. -/
def parse_string_value (value : JValue) (field : String) : Except String String :=
  match value with
  | .str text => .ok text
  | .int n => .ok (toString n)
  | .float q => .ok (toString q)
  | .bool flag => .ok (if flag then "true" else "false")
  | _ => .error (field ++ " debe ser string/number/bool")

/-- `parse_required_string_alias`. -/
def parse_required_string_alias (args : List (String × JValue)) (keys : List String) :
    Except String String :=
  match arg args keys with
  | none => .error ("Falta campo requerido: " ++ keys.headD "")
  | some v => parse_string_value v (keys.headD "")

/-- `parse_i32_value` (`as_i64` / `as_u64` / string fallback). -/
def parse_i32_value (value : JValue) (field : String) : Except String Int :=
  match value with
  | .int n =>
    if -2147483648 ≤ n ∧ n ≤ 2147483647 then .ok n
    else .error (field ++ " fuera de rango")
  | .str raw =>
    match parseI32 (strTrim raw) with
    | some n => .ok n
    | none => .error (field ++ " debe ser entero")
  | _ => .error (field ++ " debe ser entero")

/-- `parse_required_i32_alias`. -/
def parse_required_i32_alias (args : List (String × JValue)) (keys : List String) :
    Except String Int :=
  match arg args keys with
  | none => .error ("Falta campo requerido: " ++ keys.headD "")
  | some v => parse_i32_value v (keys.headD "")

/-- `parse_boolish`. -/
def parse_boolish (raw : JValue) : Option Bool :=
  match raw with
  | .bool b => some b
  | .int n => if n = 1 then some true else if n = 0 then some false else none
  | .str s =>
    match strToLower (strTrim s) with
    | "1" | "true" | "yes" | "y" => some true
    | "0" | "false" | "no" | "n" => some false
    | _ => none
  | _ => none

/-- `parse_bool_alias`. -/
def parse_bool_alias (args : List (String × JValue)) (keys : List String)
    (default : Bool) : Except String Bool :=
  match arg args keys with
  | none => .ok default
  | some raw =>
    match parse_boolish raw with
    | some b => .ok b
    | none => .error (keys.headD "" ++ " debe ser bool")

/-- `parse_usize_alias` (`as_u64` or trimmed string parse). -/
def parse_usize_alias (args : List (String × JValue)) (keys : List String) : Option Nat :=
  match arg args keys with
  | none => none
  | some v =>
    match v with
    | .int n => if 0 ≤ n then some n.toNat else none
    | .str raw => parseU64 (strTrim raw)
    | _ => none

/-- `SnapshotView`. -/
inductive SnapshotView
  | None
  | Tiny
  | Normal
  | Full
deriving Repr, DecidableEq

/-- `SnapshotView::level`. -/
def SnapshotView.level : SnapshotView → Nat
  | .None => 0
  | .Tiny => 1
  | .Normal => 2
  | .Full => 3

/-- `SnapshotView::at_least`. -/
def SnapshotView.at_least (a b : SnapshotView) : Bool :=
  b.level ≤ a.level

/-- `ResponseOptions`. -/
structure ResponseOptions where
  include_structured : Bool
  view : SnapshotView
  max_days : Nat
  max_entries : Nat
deriving Repr, DecidableEq

/-- `parse_snapshot_view`. -/
def parse_snapshot_view (raw : Option JValue) (default : SnapshotView) :
    Except String SnapshotView :=
  match raw with
  | none => .ok default
  | some raw =>
    match raw with
    | .str s =>
      match strToLower (strTrim s) with
      | "none" | "0" => .ok .None
      | "tiny" | "t" => .ok .Tiny
      | "normal" | "n" => .ok .Normal
      | "full" | "f" => .ok .Full
      | other => .error ("view invalido: " ++ other)
    | _ => .error "view debe ser string"

/-- `parse_limit` (`as_u64`, else trimmed string parse, else error; zero
rejected; clamped to `max`). -/
def parse_limit (raw : Option JValue) (default maxv : Nat) : Except String Nat :=
  match raw with
  | none => .ok default
  | some raw =>
    let valueE : Except String Nat :=
      match raw with
      | .int n =>
        if 0 ≤ n then .ok n.toNat else .error "Los limites deben ser enteros positivos"
      | .str t =>
        match parseU64 (strTrim t) with
        | some v => .ok v
        | none => .error "Los limites deben ser enteros positivos"
      | _ => .error "Los limites deben ser enteros positivos"
    match valueE with
    | .error e => .error e
    | .ok v =>
      if v = 0 then .error "Los limites deben ser mayores a 0"
      else .ok (min v maxv)

/-- `parse_response_options`. -/
def parse_response_options (args : List (String × JValue)) (default_view : SnapshotView) :
    Except String ResponseOptions :=
  match parse_bool_alias args ["structured", "stc"] false with
  | .error e => .error e
  | .ok include_structured =>
    match parse_snapshot_view (arg args ["view", "vw"]) default_view with
    | .error e => .error e
    | .ok view =>
      match parse_limit (arg args ["max_days", "md"]) 14 120 with
      | .error e => .error e
      | .ok max_days =>
        match parse_limit (arg args ["max_entries_per_day", "me"]) 20 300 with
        | .error e => .error e
        | .ok max_entries =>
          .ok { include_structured, view, max_days, max_entries }

/-- `clip_text`: copy up to `max_chars` characters, marking truncation
with `~`. -/
def clip_text (value : String) (max_chars : Nat) : String :=
  if value.length ≤ max_chars then value
  else (value.take max_chars).push '~'

/-- UTF-8 encoding of one scalar value, byte values as `Nat`. -/
def utf8EncodeChar (c : Char) : List Nat :=
  let n := c.toNat
  if n < 128 then [n]
  else if n < 2048 then [192 + n / 64, 128 + n % 64]
  else if n < 65536 then [224 + n / 4096, 128 + (n / 64) % 64, 128 + n % 64]
  else [240 + n / 262144, 128 + (n / 4096) % 64, 128 + (n / 64) % 64, 128 + n % 64]

/-- The UTF-8 byte string of a Rust `&str`. -/
def utf8Bytes (s : String) : List Nat :=
  s.data.flatMap utf8EncodeChar

/-- Character index of byte offset `target`, when `target` is a char
boundary of the encoded string (Rust `str::is_char_boundary` plus slice
start); `none` when `target` falls inside a multi-byte character, which is
exactly the case where Rust byte-slicing panics. -/
def charIndexOfByte : List Char → Nat → Option Nat
  | _, 0 => some 0
  | [], _ + 1 => none
  | c :: cs, t + 1 =>
    let n := (utf8EncodeChar c).length
    if n ≤ t + 1 then (charIndexOfByte cs (t + 1 - n)).map (· + 1) else none

/-- `mask_secret` (src/application/mcp.rs lines 1293-1301): empty token
maps to the empty string, otherwise `***` plus the last
`min(4, byte-length)` bytes via `&value[value.len() - keep..]`.  The
result is `none` when that byte slice start is not a char boundary — the
Rust code panics there. -/
def mask_secret (value : String) : Option String :=
  if value = "" then some ""
  else
    let bytes := utf8Bytes value
    let keep := min 4 bytes.length
    let start := bytes.length - keep
    match charIndexOfByte value.data start with
    | some ci => some ("***" ++ String.mk (value.data.drop ci))
    | none => none

/-- `src/utils/version.rs`: `build_version` — the compile-time release
override is absent in a plain build, so the constant default applies. -/
def build_version : String := "development"

/-- `input_mode_code`. -/
def input_mode_code : InputMode → String
  | .Normal => "n"
  | .Editing => "e"
  | .AddingEntry => "a"
  | .Configuring => "c"

/-- `focus_code`. -/
def focus_code : AppFocus → String
  | .Days => "d"
  | .Entries => "e"

/-- `form_field_code`. -/
def form_field_code : FormField → String
  | .Date => "d"
  | .ProjectId => "p"
  | .Description => "n"
  | .Minutes => "m"
  | .Billable => "b"

/-- `config_field_code`. -/
def config_field_code : ConfigField → String
  | .Token => "t"
  | .BaseUrl => "u"
  | .DefaultRange => "r"
  | .Theme => "h"

/-- Option-to-JSON for the selection indices (`Option<usize>` serializes
as null or a number). -/
def jOptNat : Option Nat → JValue
  | none => .null
  | some n => .int n

/-- `build_tiny_snapshot`. -/
def build_tiny_snapshot (session_id : String) (app : App) : JValue :=
  .obj
    [("sid", .str session_id),
     ("im", .str (input_mode_code app.input_mode)),
     ("fc", .str (focus_code app.focus)),
     ("dr", .str app.date_range.label),
     ("di", jOptNat app.day_state),
     ("ei", jOptNat app.entry_state),
     ("dc", .int app.days.length),
     ("pc", .int app.projects.length),
     ("st", .str (clip_text app.status 120))]

/-- `build_normal_snapshot`; `none` propagates the `mask_secret` panic
when a config form is open with a token whose mask slice is not on a char
boundary. -/
def build_normal_snapshot (session_id : String) (app : App) : Option JValue :=
  let base := build_tiny_snapshot session_id app
  let sd :=
    match app.selected_day with
    | some day =>
      JValue.obj
        [("d", .str day.date), ("ec", .int day.entries.length),
         ("th", .float day.total_hours)]
    | none => .null
  let se :=
    match app.selected_entry with
    | some entry =>
      JValue.obj
        [("p", .str (clip_text entry.project 48)), ("h", .float entry.hours),
         ("n", .str (clip_text entry.note 140))]
    | none => .null
  let ef :=
    match app.entry_form with
    | some form =>
      JValue.obj
        [("f", .str (form_field_code form.focused)),
         ("d", .str form.date),
         ("p", .str (clip_text form.project_search 48)),
         ("m", .str form.minutes),
         ("b", .bool form.is_billable),
         ("fc", .int form.filtered_indices.length)]
    | none => .null
  match app.config_form with
  | some form =>
    match mask_secret form.token with
    | none => none
    | some masked =>
      let cf :=
        JValue.obj
          [("f", .str (config_field_code form.focused)),
           ("u", .str (clip_text form.base_url 96)),
           ("r", .str (clip_text form.default_range 48)),
           ("th", .str (clip_text form.theme 40)),
           ("v", .str build_version),
           ("t", .str masked)]
      some (jInsert (jInsert (jInsert (jInsert base "sd" sd) "se" se) "ef" ef) "cf" cf)
  | none =>
    some (jInsert (jInsert (jInsert (jInsert base "sd" sd) "se" se) "ef" ef) "cf" .null)

/-- One entry object of the full snapshot day list. -/
def entryJson (entry : Entry) : JValue :=
  .obj
    [("p", .str (clip_text entry.project 64)), ("h", .float entry.hours),
     ("n", .str (clip_text entry.note 220))]

/-- One day object of the full snapshot day list: entries clipped to
`max_entries`, `ec` the unclipped count. -/
def dayJson (max_entries : Nat) (day : Day) : JValue :=
  .obj
    [("d", .str day.date), ("th", .float day.total_hours),
     ("ec", .int day.entries.length),
     ("e", .arr ((day.entries.take max_entries).map entryJson))]

/-- `build_full_snapshot`: the normal snapshot plus the day list, clipped
to `max_days`/`max_entries`. -/
def build_full_snapshot (session_id : String) (app : App)
    (max_days max_entries : Nat) : Option JValue :=
  (build_normal_snapshot session_id app).map fun snapshot =>
    jInsert snapshot "ds" (.arr ((app.days.take max_days).map (dayJson max_entries)))

/-- `build_snapshot` — dispatch on the requested verbosity (outer `none`
is the propagated `mask_secret` panic, inner `none` means "no snapshot
section requested"). -/
def build_snapshot (session_id : String) (app : App) (options : ResponseOptions) :
    Option (Option JValue) :=
  match options.view with
  | .None => some none
  | .Tiny => some (some (build_tiny_snapshot session_id app))
  | .Normal => (build_normal_snapshot session_id app).map some
  | .Full => (build_full_snapshot session_id app options.max_days options.max_entries).map some

/-- `parse_form_field`. -/
def parse_form_field (value : String) : Except String FormField :=
  match value with
  | "date" | "d" => .ok .Date
  | "project" | "project_id" | "p" => .ok .ProjectId
  | "description" | "desc" | "n" => .ok .Description
  | "minutes" | "m" => .ok .Minutes
  | "billable" | "b" => .ok .Billable
  | other => .error ("Campo de formulario no soportado: " ++ other)

/-- `parse_config_field`. -/
def parse_config_field (value : String) : Except String ConfigField :=
  match value with
  | "token" | "t" => .ok .Token
  | "base_url" | "url" | "u" => .ok .BaseUrl
  | "default_range" | "range" | "r" => .ok .DefaultRange
  | "theme" | "th" => .ok .Theme
  | other => .error ("Campo de config no soportado: " ++ other)

/-- `toggle_billable` (mcp.rs): open the entry form if absent, then flip
`is_billable`.  Errors keep the partially mutated state, as the Rust
`&mut App` does. -/
def toggle_billable (today : String) (app : App) : App × Option String :=
  let app := if app.entry_form.isNone then app.open_add_entry today else app
  match app.entry_form with
  | none => (app, some "No se pudo abrir formulario de entrada")
  | some form =>
    ({ app with entry_form := some { form with is_billable := !form.is_billable } }, none)

/-- `set_entry_field` (mcp.rs lines 656-745): open the entry form if
absent, resolve the `field`/`f` alias, then write one form field.  The
`project` arm replaces `project_search`, clears `selected_project` and
recomputes the filter; the `project_id` arm resolves a known id to a
selected project or degrades to unresolved search text. -/
def set_entry_field (today : String) (app0 : App)
    (args : List (String × JValue)) : App × Option String :=
  let app := if app0.entry_form.isNone then app0.open_add_entry today else app0
  match parse_required_string_alias args ["field", "f"] with
  | .error e => (app, some e)
  | .ok field =>
    if field = "date" ∨ field = "d" then
      match parse_required_string_alias args ["value", "v"] with
      | .error e => (app, some e)
      | .ok value =>
        match app.entry_form with
        | none => (app, some "No hay formulario de entrada")
        | some form => ({ app with entry_form := some { form with date := value } }, none)
    else if field = "project" ∨ field = "project_search" ∨ field = "p" then
      match parse_required_string_alias args ["value", "v"] with
      | .error e => (app, some e)
      | .ok value =>
        let app :=
          match app.entry_form with
          | some form =>
            { app with
                entry_form := some
                  { form with project_search := value, selected_project := none } }
          | none => app
        (app.update_project_filter, none)
    else if field = "project_id" ∨ field = "pid" then
      match parse_required_i32_alias args ["value", "v"] with
      | .error e => (app, some e)
      | .ok id =>
        let selected := app.projects.find? fun project => project.id = id
        let app :=
          match app.entry_form with
          | some form =>
            match selected with
            | some project =>
              { app with
                  entry_form := some
                    { form with
                        project_search := project.name
                        selected_project := some project
                        filtered_indices := [] } }
            | none =>
              { app with
                  entry_form := some
                    { form with
                        project_search := toString id
                        selected_project := none } }
          | none => app
        (if selected.isNone then app.update_project_filter else app, none)
    else if field = "description" ∨ field = "desc" ∨ field = "n" then
      match parse_required_string_alias args ["value", "v"] with
      | .error e => (app, some e)
      | .ok value =>
        match app.entry_form with
        | none => (app, some "No hay formulario de entrada")
        | some form =>
          ({ app with entry_form := some { form with description := value } }, none)
    else if field = "minutes" ∨ field = "m" then
      match parse_required_string_alias args ["value", "v"] with
      | .error e => (app, some e)
      | .ok value =>
        match app.entry_form with
        | none => (app, some "No hay formulario de entrada")
        | some form =>
          ({ app with entry_form := some { form with minutes := value } }, none)
    else if field = "billable" ∨ field = "b" then
      match parse_bool_alias args ["value", "v"] true with
      | .error e => (app, some e)
      | .ok value =>
        match app.entry_form with
        | none => (app, some "No hay formulario de entrada")
        | some form =>
          ({ app with entry_form := some { form with is_billable := value } }, none)
    else if field = "focused" ∨ field = "focus" then
      match parse_required_string_alias args ["value", "v"] with
      | .error e => (app, some e)
      | .ok value =>
        match parse_form_field value with
        | .error e => (app, some e)
        | .ok focused =>
          match app.entry_form with
          | none => (app, some "No hay formulario de entrada")
          | some form =>
            ({ app with entry_form := some { form with focused := focused } }, none)
    else (app, some ("Campo de entrada no soportado: " ++ field))

/-- `select_project` (mcp.rs): resolve a filtered index to a project,
set it as selected, canonicalize the search text, close the dropdown. -/
def select_project (today : String) (app0 : App)
    (args : List (String × JValue)) : App × Option String :=
  let app := if app0.entry_form.isNone then app0.open_add_entry today else app0
  let app :=
    match app.entry_form with
    | some form => if form.filtered_indices.isEmpty then app.update_project_filter else app
    | none => app
  let index := (parse_usize_alias args ["index", "i"]).getD 0
  match parse_bool_alias args ["move_next", "mn"] true with
  | .error e => (app, some e)
  | .ok move_next =>
    match app.entry_form with
    | none => (app, some "No hay formulario de entrada")
    | some form =>
      match form.filtered_indices[index]? with
      | none => (app, some ("No existe proyecto filtrado en indice " ++ toString index))
      | some project_idx =>
        match app.projects[project_idx]? with
        | none => (app, some "Proyecto no encontrado")
        | some project =>
          let form :=
            { form with
                selected_project := some project
                project_search := project.name
                filtered_indices := []
                list_state := none }
          let form := if move_next then { form with focused := form.focused.next_field } else form
          ({ app with entry_form := some form }, none)

/-! ## RPC dispatch (`src/application/mcp.rs`, `handle_rpc_request`) -/

/-- A JSON-RPC response body: `rpc_result` or `rpc_error`. -/
inductive RpcResp
  | result (id : JValue) (payload : JValue)
  | error (id : JValue) (code : Int) (message : String)

/-- The request envelope `{id?, method, params}`. -/
structure RpcRequest where
  id : Option JValue
  method : String
  params : JValue

/-- `RpcOutcome`. -/
structure RpcOutcome where
  response : Option RpcResp
  exit : Bool

/-- The static `initialize` result payload. -/
def initResult : JValue :=
  .obj
    [("protocolVersion", .str "2024-11-05"),
     ("capabilities", .obj [("tools", .obj [("listChanged", .bool false)])]),
     ("serverInfo", .obj [("name", .str "vartui-mcp"), ("version", .str build_version)]),
     ("instructions",
      .str "Servidor MCP headless para el TUI. Usa `vartui.session.action` para menos tokens y `view=tiny|none` para respuestas minimas.")]

/-- Schema fragment shared by the tool catalogue: one string property. -/
def strProp : JValue := .obj [("type", .str "string")]

/-- Schema fragment: boolean property. -/
def boolProp : JValue := .obj [("type", .str "boolean")]

/-- Schema fragment: bounded integer property. -/
def intProp (lo hi : Int) : JValue :=
  .obj [("type", .str "integer"), ("minimum", .int lo), ("maximum", .int hi)]

/-- Schema fragment: the `view` / `vw` enum properties. -/
def viewProps : List (String × JValue) :=
  [("view", .obj [("type", .str "string"),
      ("enum", .arr [.str "none", .str "tiny", .str "normal", .str "full"])]),
   ("vw", .obj [("type", .str "string"),
      ("enum", .arr [.str "n", .str "t", .str "f", .str "0"])])]

/-- Schema fragments shared by the snapshot-returning tools. -/
def snapshotProps : List (String × JValue) :=
  viewProps ++
    [("max_days", intProp 1 120), ("md", intProp 1 120),
     ("max_entries_per_day", intProp 1 300), ("me", intProp 1 300),
     ("structured", boolProp), ("stc", boolProp)]

/-- The static `tools/list` result payload. -/
def toolsListResult : JValue :=
  .obj
    [("tools",
      .arr
        [.obj
          [("name", .str "vartui.session.create"),
           ("description",
            .str "Crea sesion TUI aislada. Salida TOON compacta (default: view=tiny)."),
           ("inputSchema",
            .obj [("type", .str "object"), ("properties", .obj snapshotProps)])],
         .obj
          [("name", .str "vartui.session.snapshot"),
           ("description",
            .str "Obtiene estado de sesion. Para menor costo usa view=tiny o view=none."),
           ("inputSchema",
            .obj [("type", .str "object"), ("required", .arr [.str "session_id"]),
              ("properties",
               .obj ([("session_id", strProp), ("sid", strProp)] ++ snapshotProps))])],
         .obj
          [("name", .str "vartui.session.key"),
           ("description",
            .str "Paridad 1:1 con teclado del TUI. Recomendado solo cuando necesitas emulacion exacta."),
           ("inputSchema",
            .obj [("type", .str "object"),
              ("required", .arr [.str "session_id", .str "key"]),
              ("properties",
               .obj ([("session_id", strProp), ("sid", strProp), ("key", strProp),
                 ("k", strProp), ("text", strProp), ("t", strProp)] ++ snapshotProps))])],
         .obj
          [("name", .str "vartui.session.action"),
           ("description",
            .str "Acciones semanticas y batch para menor consumo de tokens. Soporta aliases cortos (a,f,v,k,t,i,sid,vw)."),
           ("inputSchema",
            .obj [("type", .str "object"), ("required", .arr [.str "session_id"]),
              ("properties",
               .obj ([("session_id", strProp), ("sid", strProp), ("action", strProp),
                 ("a", strProp),
                 ("actions", .obj [("type", .str "array"),
                    ("items", .obj [("type", .str "object")])]),
                 ("field", strProp), ("f", strProp), ("value", .obj []), ("v", .obj []),
                 ("key", strProp), ("k", strProp), ("text", strProp), ("t", strProp),
                 ("index", .obj [("type", .str "integer"), ("minimum", .int 0)]),
                 ("i", .obj [("type", .str "integer"), ("minimum", .int 0)])]
                 ++ snapshotProps))])],
         .obj
          [("name", .str "vartui.session.close"),
           ("description", .str "Cierra una sesion TUI y libera memoria."),
           ("inputSchema",
            .obj [("type", .str "object"), ("required", .arr [.str "session_id"]),
              ("properties",
               .obj [("session_id", strProp), ("sid", strProp),
                 ("structured", boolProp), ("stc", boolProp)])])]])]

/-- `tool_error_result` — tool failures become a structured `isError`
payload, never a protocol error (`encode` abstracts the toon encoder). -/
def tool_error_result (encode : JValue → String) (message : String) : JValue :=
  let payload := JValue.obj [("e", .str "er"), ("m", .str (clip_text message 220))]
  .obj
    [("content", .arr [.obj [("type", .str "text"), ("text", .str (encode payload))]]),
     ("isError", .bool true)]

/-- `handle_rpc_request` — the method dispatch.  `tool` abstracts
`handle_tool_call` over the server state `σ` (session map mutation and
the five tools).  Every branch answers only requests that carry an id. -/
def handle_rpc_request {σ : Type} (encode : JValue → String)
    (tool : σ → JValue → σ × Except String JValue)
    (state : σ) (request : RpcRequest) : σ × RpcOutcome :=
  match request.method with
  | "initialize" =>
    (state, { response := request.id.map fun i => .result i initResult, exit := false })
  | "notifications/initialized" => (state, { response := none, exit := false })
  | "ping" =>
    (state, { response := request.id.map fun i => .result i (.obj []), exit := false })
  | "tools/list" =>
    (state, { response := request.id.map fun i => .result i toolsListResult, exit := false })
  | "tools/call" =>
    match request.id with
    | some i =>
      let res := tool state request.params
      let payload :=
        match res.2 with
        | .ok ok => ok
        | .error message => tool_error_result encode message
      (res.1, { response := some (.result i payload), exit := false })
    | none => (state, { response := none, exit := false })
  | "shutdown" =>
    (state, { response := request.id.map fun i => .result i (.obj []), exit := false })
  | "exit" => (state, { response := none, exit := true })
  | other =>
    (state,
     { response := request.id.map fun i =>
        .error i (-32601) ("Metodo no soportado: " ++ other)
       exit := false })

/-- The seven supported RPC methods. -/
def supportedMethods : List String :=
  ["initialize", "notifications/initialized", "ping", "tools/list", "tools/call",
   "shutdown", "exit"]

/-! ## The operation alphabet of the state machine

One constructor per mutating `App` method (with the external inputs each
one consumes), plus the MCP field-level actions that bypass the key
dispatcher.  `applyOp` is the uniform driver used to state machine-wide
invariants. -/

/-- Every mutating operation on an `App`. -/
inductive Op
  | setDays (days : List Day)
  | nextDay
  | prevDay
  | focusEntries
  | focusDays
  | nextEntry
  | prevEntry
  | openDuplicateEntry
  | refresh
  | startInput
  | cancelInput
  | submitInput (today : YMD)
  | inputPush (c : Char)
  | inputBackspace
  | checkBackgroundLoad (day_res : Option (List Day × String))
      (proj_res : Option (Except String (List Project)))
  | openAddEntry (today : String)
  | closeAddEntry
  | formNextField
  | formPrevField
  | formPush (c : Char)
  | formBackspace
  | updateProjectFilter
  | formNavUp
  | formNavDown
  | formEnter (env : Env) (client_res create_res : Except String Unit)
  | submitEntry (env : Env) (client_res create_res : Except String Unit)
  | openConfig (env : Env)
  | closeConfig
  | saveConfigForm (today : YMD) (save_res : Except String Unit)
  | configNextField
  | configInput (c : Char)
  | configBackspace
  | configClearField
  | toggleBillable (today : String)
  | setEntryField (today : String) (args : List (String × JValue))
  | selectProject (today : String) (args : List (String × JValue))

/-- Run one operation (errors and emitted remote calls are dropped here;
only the successor state matters for state invariants). -/
def applyOp (op : Op) (app : App) : App :=
  match op with
  | .setDays days => app.set_days days
  | .nextDay => app.next_day
  | .prevDay => app.previous_day
  | .focusEntries => app.focus_entries
  | .focusDays => app.focus_days
  | .nextEntry => app.next_entry
  | .prevEntry => app.previous_entry
  | .openDuplicateEntry => app.open_duplicate_entry
  | .refresh => app.refresh
  | .startInput => app.start_input
  | .cancelInput => app.cancel_input
  | .submitInput today => app.submit_input today
  | .inputPush c => app.input_push c
  | .inputBackspace => app.input_backspace
  | .checkBackgroundLoad day_res proj_res => app.check_background_load day_res proj_res
  | .openAddEntry today => app.open_add_entry today
  | .closeAddEntry => app.close_add_entry
  | .formNextField => app.form_next_field
  | .formPrevField => app.form_prev_field
  | .formPush c => app.form_input_push c
  | .formBackspace => app.form_input_backspace
  | .updateProjectFilter => app.update_project_filter
  | .formNavUp => app.form_nav_up
  | .formNavDown => app.form_nav_down
  | .formEnter env client_res create_res => (app.form_enter env client_res create_res).1
  | .submitEntry env client_res create_res => (app.submit_entry env client_res create_res).1
  | .openConfig env => app.open_config env
  | .closeConfig => app.close_config
  | .saveConfigForm today save_res => app.save_config_form today save_res
  | .configNextField => app.config_next_field
  | .configInput c => app.config_input c
  | .configBackspace => app.config_backspace
  | .configClearField => app.config_clear_field
  | .toggleBillable today => (toggle_billable today app).1
  | .setEntryField today args => (set_entry_field today app args).1
  | .selectProject today args => (select_project today app args).1

/-- Day-selection invariant: the cursor is absent exactly on an empty day
list, and otherwise indexes into it. -/
def dayInv (app : App) : Prop :=
  (app.day_state = none ↔ app.days = []) ∧
    ∀ i, app.day_state = some i → i < app.days.length

/-! ## Frame lemmas: which operations leave the day list and cursor alone -/

theorem dayInv_congr {a b : App} (hd : a.days = b.days)
    (hs : a.day_state = b.day_state) (h : dayInv b) : dayInv a := by
  unfold dayInv at *
  rw [hd, hs]
  exact h

theorem dayInv_set_days (app : App) (ds : List Day) : dayInv (app.set_days ds) := by
  unfold App.set_days dayInv
  split
  · next h =>
    rw [List.isEmpty_iff] at h
    subst h
    simp
  · next h =>
    have hne : ds ≠ [] := by simpa [List.isEmpty_iff] using h
    have hlen : 0 < ds.length := List.length_pos.mpr hne
    dsimp only
    refine ⟨by simp [hne], fun i hi => ?_⟩
    have hi' : min (app.day_state.getD 0) (ds.length - 1) = i := Option.some.inj hi
    omega

theorem update_project_filter_days (app : App) :
    (app.update_project_filter).days = app.days := by
  unfold App.update_project_filter
  cases app.entry_form <;> simp

theorem update_project_filter_day_state (app : App) :
    (app.update_project_filter).day_state = app.day_state := by
  unfold App.update_project_filter
  cases app.entry_form <;> simp

theorem open_add_entry_days (today : String) (app : App) :
    (app.open_add_entry today).days = app.days := by
  unfold App.open_add_entry
  rw [update_project_filter_days]

theorem open_add_entry_day_state (today : String) (app : App) :
    (app.open_add_entry today).day_state = app.day_state := by
  unfold App.open_add_entry
  rw [update_project_filter_day_state]

theorem submit_entry_frame (env : Env) (cr rr : Except String Unit) (app : App) :
    ((app.submit_entry env cr rr).1).days = app.days ∧
      ((app.submit_entry env cr rr).1).day_state = app.day_state := by
  unfold App.submit_entry
  cases app.entry_form with
  | none => exact ⟨rfl, rfl⟩
  | some form =>
    dsimp only
    repeat' split
    all_goals exact ⟨rfl, rfl⟩

theorem submit_entry_days (env : Env) (cr rr : Except String Unit) (app : App) :
    ((app.submit_entry env cr rr).1).days = app.days :=
  (submit_entry_frame env cr rr app).1

theorem submit_entry_day_state (env : Env) (cr rr : Except String Unit) (app : App) :
    ((app.submit_entry env cr rr).1).day_state = app.day_state :=
  (submit_entry_frame env cr rr app).2

theorem focus_entries_frame (app : App) :
    (app.focus_entries).days = app.days ∧ (app.focus_entries).day_state = app.day_state := by
  unfold App.focus_entries
  try dsimp only
  repeat' split
  all_goals exact ⟨rfl, rfl⟩

theorem next_entry_frame (app : App) :
    (app.next_entry).days = app.days ∧ (app.next_entry).day_state = app.day_state := by
  unfold App.next_entry
  try dsimp only
  repeat' split
  all_goals exact ⟨rfl, rfl⟩

theorem previous_entry_frame (app : App) :
    (app.previous_entry).days = app.days ∧
      (app.previous_entry).day_state = app.day_state := by
  unfold App.previous_entry
  try dsimp only
  repeat' split
  all_goals exact ⟨rfl, rfl⟩

theorem open_duplicate_entry_frame (app : App) :
    (app.open_duplicate_entry).days = app.days ∧
      (app.open_duplicate_entry).day_state = app.day_state := by
  unfold App.open_duplicate_entry
  try dsimp only
  repeat' split
  all_goals
    simp [update_project_filter_days, update_project_filter_day_state]

theorem input_push_frame (app : App) (c : Char) :
    (app.input_push c).days = app.days ∧ (app.input_push c).day_state = app.day_state := by
  unfold App.input_push
  split
  all_goals exact ⟨rfl, rfl⟩

theorem form_next_field_frame (app : App) :
    (app.form_next_field).days = app.days ∧
      (app.form_next_field).day_state = app.day_state := by
  unfold App.form_next_field
  try dsimp only
  repeat' split
  all_goals exact ⟨rfl, rfl⟩

theorem form_prev_field_frame (app : App) :
    (app.form_prev_field).days = app.days ∧
      (app.form_prev_field).day_state = app.day_state := by
  unfold App.form_prev_field
  try dsimp only
  repeat' split
  all_goals exact ⟨rfl, rfl⟩

theorem form_input_push_frame (app : App) (c : Char) :
    (app.form_input_push c).days = app.days ∧
      (app.form_input_push c).day_state = app.day_state := by
  unfold App.form_input_push
  try dsimp only
  repeat' split
  all_goals
    simp [update_project_filter_days, update_project_filter_day_state]

theorem form_input_backspace_frame (app : App) :
    (app.form_input_backspace).days = app.days ∧
      (app.form_input_backspace).day_state = app.day_state := by
  unfold App.form_input_backspace
  try dsimp only
  repeat' split
  all_goals
    simp [update_project_filter_days, update_project_filter_day_state]

theorem form_nav_up_frame (app : App) :
    (app.form_nav_up).days = app.days ∧ (app.form_nav_up).day_state = app.day_state := by
  unfold App.form_nav_up
  try dsimp only
  repeat' split
  all_goals exact ⟨rfl, rfl⟩

theorem form_nav_down_frame (app : App) :
    (app.form_nav_down).days = app.days ∧
      (app.form_nav_down).day_state = app.day_state := by
  unfold App.form_nav_down
  try dsimp only
  repeat' split
  all_goals exact ⟨rfl, rfl⟩

theorem form_enter_frame (env : Env) (cr rr : Except String Unit) (app : App) :
    ((app.form_enter env cr rr).1).days = app.days ∧
      ((app.form_enter env cr rr).1).day_state = app.day_state := by
  unfold App.form_enter
  try dsimp only
  repeat' split
  all_goals first
    | exact ⟨rfl, rfl⟩
    | exact ⟨submit_entry_days _ _ _ _, submit_entry_day_state _ _ _ _⟩
    | exact ⟨(form_next_field_frame _).1, (form_next_field_frame _).2⟩

theorem config_next_field_frame (app : App) :
    (app.config_next_field).days = app.days ∧
      (app.config_next_field).day_state = app.day_state := by
  unfold App.config_next_field
  try dsimp only
  repeat' split
  all_goals exact ⟨rfl, rfl⟩

theorem config_input_frame (app : App) (c : Char) :
    (app.config_input c).days = app.days ∧
      (app.config_input c).day_state = app.day_state := by
  unfold App.config_input
  try dsimp only
  repeat' split
  all_goals exact ⟨rfl, rfl⟩

theorem config_backspace_frame (app : App) :
    (app.config_backspace).days = app.days ∧
      (app.config_backspace).day_state = app.day_state := by
  unfold App.config_backspace
  try dsimp only
  repeat' split
  all_goals exact ⟨rfl, rfl⟩

theorem config_clear_field_frame (app : App) :
    (app.config_clear_field).days = app.days ∧
      (app.config_clear_field).day_state = app.day_state := by
  unfold App.config_clear_field
  try dsimp only
  repeat' split
  all_goals exact ⟨rfl, rfl⟩

theorem toggle_billable_frame (today : String) (app : App) :
    ((toggle_billable today app).1).days = app.days ∧
      ((toggle_billable today app).1).day_state = app.day_state := by
  unfold toggle_billable
  try dsimp only
  repeat' split
  all_goals
    simp [open_add_entry_days, open_add_entry_day_state]

theorem openIf_frame (today : String) (app0 : App) :
    (if app0.entry_form.isNone then app0.open_add_entry today else app0).days
        = app0.days ∧
      (if app0.entry_form.isNone then app0.open_add_entry today else app0).day_state
        = app0.day_state := by
  split <;> simp [open_add_entry_days, open_add_entry_day_state]

theorem set_entry_field_frame (today : String) (app0 : App)
    (args : List (String × JValue)) :
    ((set_entry_field today app0 args).1).days = app0.days ∧
      ((set_entry_field today app0 args).1).day_state = app0.day_state := by
  unfold set_entry_field
  try dsimp only
  set app1 := if app0.entry_form.isNone then app0.open_add_entry today else app0
    with happ1
  have h1 := openIf_frame today app0
  rw [← happ1] at h1
  repeat' split
  all_goals
    simp [h1.1, h1.2, update_project_filter_days, update_project_filter_day_state]

theorem select_project_frame (today : String) (app0 : App)
    (args : List (String × JValue)) :
    ((select_project today app0 args).1).days = app0.days ∧
      ((select_project today app0 args).1).day_state = app0.day_state := by
  unfold select_project
  try dsimp only
  set app1 := if app0.entry_form.isNone then app0.open_add_entry today else app0
    with happ1
  have h1 := openIf_frame today app0
  rw [← happ1] at h1
  set app2 :=
    match app1.entry_form with
    | some form => if form.filtered_indices.isEmpty then app1.update_project_filter else app1
    | none => app1
    with happ2
  have h2 : app2.days = app0.days ∧ app2.day_state = app0.day_state := by
    rw [happ2]
    split
    · split
      · simp [update_project_filter_days, update_project_filter_day_state, h1.1, h1.2]
      · exact h1
    · exact h1
  repeat' split
  all_goals
    simp [h2.1, h2.2, update_project_filter_days, update_project_filter_day_state]

theorem dayInv_next_day {app : App} (h : dayInv app) : dayInv app.next_day := by
  unfold App.next_day
  split
  · exact h
  · next hne =>
    have hne' : app.days ≠ [] := by simpa [List.isEmpty_iff] using hne
    have hlen : 0 < app.days.length := List.length_pos.mpr hne'
    cases hst : app.day_state with
    | none =>
      dsimp only
      refine ⟨by simp [hne'], fun i hi => ?_⟩
      have hi' : (0 : Nat) = i := Option.some.inj hi
      show i < app.days.length
      omega
    | some idx =>
      dsimp only
      refine ⟨by simp [hne'], fun i hi => ?_⟩
      have hi' : (if idx + 1 < app.days.length then idx + 1 else 0) = i :=
        Option.some.inj hi
      show i < app.days.length
      by_cases hlt : idx + 1 < app.days.length <;> simp [hlt] at hi' <;> omega

theorem dayInv_previous_day {app : App} (h : dayInv app) : dayInv app.previous_day := by
  unfold App.previous_day
  split
  · exact h
  · next hne =>
    have hne' : app.days ≠ [] := by simpa [List.isEmpty_iff] using hne
    have hlen : 0 < app.days.length := List.length_pos.mpr hne'
    cases hst : app.day_state with
    | none =>
      dsimp only
      refine ⟨by simp [hne'], fun i hi => ?_⟩
      have hi' : app.days.length - 1 = i := Option.some.inj hi
      show i < app.days.length
      omega
    | some idx =>
      cases idx with
      | zero =>
        dsimp only
        refine ⟨by simp [hne'], fun i hi => ?_⟩
        have hi' : app.days.length - 1 = i := Option.some.inj hi
        show i < app.days.length
        omega
      | succ j =>
        have hidx : j + 1 < app.days.length := h.2 (j + 1) hst
        dsimp only
        refine ⟨by simp [hne'], fun i hi => ?_⟩
        have hi' : j = i := Option.some.inj hi
        show i < app.days.length
        omega

theorem dayInv_submit_input {app : App} (today : YMD) (h : dayInv app) :
    dayInv (app.submit_input today) := by
  unfold App.submit_input
  split
  · exact dayInv_congr rfl rfl (dayInv_set_days _ _)
  · exact dayInv_congr rfl rfl h

theorem dayInv_check_background_load {app : App}
    (day_res : Option (List Day × String))
    (proj_res : Option (Except String (List Project))) (h : dayInv app) :
    dayInv (app.check_background_load day_res proj_res) := by
  unfold App.check_background_load
  cases day_res with
  | none =>
    dsimp only
    cases proj_res with
    | none => exact h
    | some r =>
      cases r with
      | ok ps => exact dayInv_congr rfl rfl h
      | error e => exact dayInv_congr rfl rfl h
  | some pair =>
    cases pair with
    | mk days st =>
      dsimp only
      have hset := dayInv_set_days app days
      cases proj_res with
      | none => exact dayInv_congr rfl rfl hset
      | some r =>
        cases r with
        | ok ps => exact dayInv_congr rfl rfl hset
        | error e => exact dayInv_congr rfl rfl hset

theorem dayInv_save_config_form {app : App} (today : YMD)
    (save_res : Except String Unit) (h : dayInv app) :
    dayInv (app.save_config_form today save_res) := by
  unfold App.save_config_form
  try dsimp only
  repeat' split
  all_goals first
    | exact h
    | exact dayInv_congr rfl rfl h
    | exact dayInv_congr rfl rfl (dayInv_set_days _ _)

theorem dayInv_select_zero (a : App) (hne : a.days ≠ []) :
    dayInv { a with day_state := some 0 } :=
  ⟨by simp [hne], fun i hi => by cases Option.some.inj hi; exact List.length_pos.mpr hne⟩

theorem dayInv_new_aux (a : App) (hst : a.day_state = none) :
    dayInv (if a.days.isEmpty then a else { a with day_state := some 0 }) := by
  split
  · next hempty =>
    exact ⟨by simp [hst, List.isEmpty_iff.mp hempty],
      fun i hi => by rw [hst] at hi; exact Option.noConfusion hi⟩
  · next hne =>
    exact dayInv_select_zero a (by simpa [List.isEmpty_iff] using hne)

theorem dayInv_new (config : AppConfig) (today : YMD) : dayInv (App.new config today) := by
  unfold App.new
  try dsimp only
  exact dayInv_new_aux
    { days := build_empty_days
        (match config.default_date_range with
         | some s =>
           match parse_date_range today s with
           | .ok r => r
           | .error _ => initial_date_range today
         | none => initial_date_range today)
      day_state := none
      entry_state := none
      focus := .Days
      status := "cargando..."
      date_range :=
        match config.default_date_range with
        | some s =>
          match parse_date_range today s with
          | .ok r => r
          | .error _ => initial_date_range today
        | none => initial_date_range today
      input_mode := .Normal
      input := ""
      entry_form := none
      projects := []
      config := config
      config_form := none } rfl

/-- A concrete session used to instantiate hypotheses in witnesses. -/
def baseApp : App :=
  { days := [{ date := "2024-03-01", entries := [] }]
    day_state := some 0
    entry_state := none
    focus := .Days
    status := ""
    date_range := { start := "2024-03-01", stop := "2024-03-01" }
    input_mode := .Normal
    input := ""
    entry_form := none
    projects := []
    config := AppConfig.default
    config_form := none }

/-- C4: every `App` operation preserves the day-selection invariant (index
`None` iff the day list is empty, otherwise within `[0, len)`); replacing
the day list re-clamps the previous index to `min(previous, len-1)`; and a
freshly constructed `App` satisfies the invariant. -/
theorem C4_day_selection_invariant (op : Op) (app : App) (h : dayInv app) :
    dayInv (applyOp op app) ∧
      (∀ ds, ds ≠ [] →
        (app.set_days ds).day_state
          = some (min (app.day_state.getD 0) (ds.length - 1))) ∧
      ∀ config today, dayInv (App.new config today) := by
  refine ⟨?_, ?_, fun config today => dayInv_new config today⟩
  · cases op with
    | setDays ds => exact dayInv_set_days app ds
    | nextDay => exact dayInv_next_day h
    | prevDay => exact dayInv_previous_day h
    | focusEntries =>
      exact dayInv_congr (focus_entries_frame app).1 (focus_entries_frame app).2 h
    | focusDays => exact dayInv_congr rfl rfl h
    | nextEntry => exact dayInv_congr (next_entry_frame app).1 (next_entry_frame app).2 h
    | prevEntry =>
      exact dayInv_congr (previous_entry_frame app).1 (previous_entry_frame app).2 h
    | openDuplicateEntry =>
      exact dayInv_congr (open_duplicate_entry_frame app).1
        (open_duplicate_entry_frame app).2 h
    | refresh => exact dayInv_congr rfl rfl h
    | startInput => exact dayInv_congr rfl rfl h
    | cancelInput => exact dayInv_congr rfl rfl h
    | submitInput today => exact dayInv_submit_input today h
    | inputPush c =>
      exact dayInv_congr (input_push_frame app c).1 (input_push_frame app c).2 h
    | inputBackspace => exact dayInv_congr rfl rfl h
    | checkBackgroundLoad dr pr => exact dayInv_check_background_load dr pr h
    | openAddEntry today =>
      exact dayInv_congr (open_add_entry_days today app) (open_add_entry_day_state today app) h
    | closeAddEntry => exact dayInv_congr rfl rfl h
    | formNextField =>
      exact dayInv_congr (form_next_field_frame app).1 (form_next_field_frame app).2 h
    | formPrevField =>
      exact dayInv_congr (form_prev_field_frame app).1 (form_prev_field_frame app).2 h
    | formPush c =>
      exact dayInv_congr (form_input_push_frame app c).1 (form_input_push_frame app c).2 h
    | formBackspace =>
      exact dayInv_congr (form_input_backspace_frame app).1
        (form_input_backspace_frame app).2 h
    | updateProjectFilter =>
      exact dayInv_congr (update_project_filter_days app)
        (update_project_filter_day_state app) h
    | formNavUp =>
      exact dayInv_congr (form_nav_up_frame app).1 (form_nav_up_frame app).2 h
    | formNavDown =>
      exact dayInv_congr (form_nav_down_frame app).1 (form_nav_down_frame app).2 h
    | formEnter env cr rr =>
      exact dayInv_congr (form_enter_frame env cr rr app).1
        (form_enter_frame env cr rr app).2 h
    | submitEntry env cr rr =>
      exact dayInv_congr (submit_entry_days env cr rr app)
        (submit_entry_day_state env cr rr app) h
    | openConfig env => exact dayInv_congr rfl rfl h
    | closeConfig => exact dayInv_congr rfl rfl h
    | saveConfigForm today sr => exact dayInv_save_config_form today sr h
    | configNextField =>
      exact dayInv_congr (config_next_field_frame app).1 (config_next_field_frame app).2 h
    | configInput c =>
      exact dayInv_congr (config_input_frame app c).1 (config_input_frame app c).2 h
    | configBackspace =>
      exact dayInv_congr (config_backspace_frame app).1 (config_backspace_frame app).2 h
    | configClearField =>
      exact dayInv_congr (config_clear_field_frame app).1
        (config_clear_field_frame app).2 h
    | toggleBillable today =>
      exact dayInv_congr (toggle_billable_frame today app).1
        (toggle_billable_frame today app).2 h
    | setEntryField today args =>
      exact dayInv_congr (set_entry_field_frame today app args).1
        (set_entry_field_frame today app args).2 h
    | selectProject today args =>
      exact dayInv_congr (select_project_frame today app args).1
        (select_project_frame today app args).2 h
  · intro ds hne
    unfold App.set_days
    rw [if_neg (by simpa [List.isEmpty_iff] using hne)]

/-- Witness for C4 at a concrete session and operation. -/
theorem C4_witness :
    dayInv (applyOp (Op.setDays
        [{ date := "2024-03-02", entries := [] }, { date := "2024-03-01", entries := [] }])
        baseApp) ∧
      (∀ ds, ds ≠ [] →
        (baseApp.set_days ds).day_state
          = some (min (baseApp.day_state.getD 0) (ds.length - 1))) ∧
      ∀ config today, dayInv (App.new config today) :=
  C4_day_selection_invariant _ baseApp
    ⟨by decide, fun i hi => by cases Option.some.inj hi; decide⟩

/-- C5: navigation wraps circularly — from the last index `next` yields 0,
from index 0 `previous` yields the last index, and on a single-element
list both keep the index at 0; likewise for the entry list of the selected
day when focus is on entries. -/
theorem C5_circular_navigation (app : App) (hne : app.days ≠ []) :
    (app.day_state = some (app.days.length - 1) → (app.next_day).day_state = some 0) ∧
      (app.day_state = some 0 →
        (app.previous_day).day_state = some (app.days.length - 1)) ∧
      (app.days.length = 1 → app.day_state = some 0 →
        (app.next_day).day_state = some 0 ∧ (app.previous_day).day_state = some 0) ∧
      ∀ day, app.focus = .Entries → app.selected_day = some day → day.entries ≠ [] →
        (app.entry_state = some (day.entries.length - 1) →
          (app.next_entry).entry_state = some 0) ∧
        (app.entry_state = some 0 →
          (app.previous_entry).entry_state = some (day.entries.length - 1)) ∧
        (day.entries.length = 1 → app.entry_state = some 0 →
          (app.next_entry).entry_state = some 0 ∧
            (app.previous_entry).entry_state = some 0) := by
  have hnotempty : ¬(app.days.isEmpty = true) := by simpa [List.isEmpty_iff] using hne
  have hlen : 0 < app.days.length := List.length_pos.mpr hne
  refine ⟨?_, ?_, ?_, ?_⟩
  · intro hst
    unfold App.next_day
    rw [if_neg hnotempty]
    have hnolt : ¬(app.days.length - 1 + 1 < app.days.length) := by omega
    simp [hst, hnolt]
  · intro hst
    unfold App.previous_day
    rw [if_neg hnotempty]
    simp [hst]
  · intro hone hst
    constructor
    · unfold App.next_day
      rw [if_neg hnotempty]
      simp [hst, hone]
    · unfold App.previous_day
      rw [if_neg hnotempty]
      simp [hst, hone]
  · intro day _ hsel hentries
    have hday : ¬(day.entries.isEmpty = true) := by simpa [List.isEmpty_iff] using hentries
    have helen : 0 < day.entries.length := List.length_pos.mpr hentries
    refine ⟨?_, ?_, ?_⟩
    · intro hst
      unfold App.next_entry
      rw [hsel]
      dsimp only
      rw [if_neg hday]
      have hnolt : ¬(day.entries.length - 1 + 1 < day.entries.length) := by omega
      simp [hst, hnolt]
    · intro hst
      unfold App.previous_entry
      rw [hsel]
      dsimp only
      rw [if_neg hday]
      simp [hst]
    · intro hone hst
      constructor
      · unfold App.next_entry
        rw [hsel]
        dsimp only
        rw [if_neg hday]
        simp [hst, hone]
      · unfold App.previous_entry
        rw [hsel]
        dsimp only
        rw [if_neg hday]
        simp [hst, hone]

/-- A session with two days, the second selected, and focus on the
two-entry list of that day's entries with the last entry selected. -/
def navApp : App :=
  { baseApp with
      days :=
        [{ date := "2024-03-02", entries := [] },
         { date := "2024-03-01",
           entries :=
             [{ project := "Acme", hours := 1, note := "a" },
              { project := "Beta", hours := 2, note := "b" }] }]
      day_state := some 1
      entry_state := some 1
      focus := .Entries }

/-- Witness for C5 at a concrete session. -/
theorem C5_witness :
    ((navApp.day_state = some (navApp.days.length - 1) →
        (navApp.next_day).day_state = some 0) ∧
      (navApp.day_state = some 0 →
        (navApp.previous_day).day_state = some (navApp.days.length - 1)) ∧
      (navApp.days.length = 1 → navApp.day_state = some 0 →
        (navApp.next_day).day_state = some 0 ∧
          (navApp.previous_day).day_state = some 0) ∧
      ∀ day, navApp.focus = .Entries → navApp.selected_day = some day →
        day.entries ≠ [] →
        (navApp.entry_state = some (day.entries.length - 1) →
          (navApp.next_entry).entry_state = some 0) ∧
        (navApp.entry_state = some 0 →
          (navApp.previous_entry).entry_state = some (day.entries.length - 1)) ∧
        (day.entries.length = 1 → navApp.entry_state = some 0 →
          (navApp.next_entry).entry_state = some 0 ∧
            (navApp.previous_entry).entry_state = some 0)) ∧
      (navApp.next_day).day_state = some 0 :=
  ⟨C5_circular_navigation navApp (by decide),
   (C5_circular_navigation navApp (by decide)).1 (by decide)⟩

/-- A session in range-editing mode with the scenario's range text. -/
def editApp : App :=
  { baseApp with input_mode := .Editing, input := "2024-03-01..2024-03-03" }

/-- C6: submitting the range text `2024-03-01..2024-03-03` from Editing
mode replaces the day list with exactly the three dates in descending
order, each with no entries, returns to Normal mode and clears the input
buffer (the skeleton stays empty until a fetch result is merged). -/
theorem C6_range_submit :
    (editApp.submit_input ⟨2024, 6, 15⟩).days =
        [{ date := "2024-03-03", entries := [] },
         { date := "2024-03-02", entries := [] },
         { date := "2024-03-01", entries := [] }] ∧
      (editApp.submit_input ⟨2024, 6, 15⟩).input_mode = .Normal ∧
      (editApp.submit_input ⟨2024, 6, 15⟩).date_range =
        { start := "2024-03-01", stop := "2024-03-03" } ∧
      (editApp.submit_input ⟨2024, 6, 15⟩).input = "" := by
  decide

/-- C3: the minutes text parses as `H:MM`/`HH:MM` (hours·60+minutes) or a
bare integer count; `1:30` ↦ 90 and `90` ↦ 90, while `0:00`, `0` and
`abc` all produce 0; any zero parse makes `submit_entry` set the
invalid-time status and leave the form open, and a text parsing to 90
reaches the remote create call with `minutes = 90`. -/
theorem C3_minutes_validation (app : App) (env : Env)
    (cr rr : Except String Unit) (form : EntryForm) (p : Project)
    (hform : app.entry_form = some form)
    (hsel : form.selected_project = some p) (hp : p.id ≠ 0)
    (hdate : form.date ≠ "") (hdesc : form.description ≠ "") :
    parseMinutes "1:30" = 90 ∧ parseMinutes "90" = 90 ∧
      parseMinutes "0:00" = 0 ∧ parseMinutes "0" = 0 ∧ parseMinutes "abc" = 0 ∧
      (form.minutes ≠ "" → parseMinutes form.minutes = 0 →
        app.submit_entry env cr rr =
          ({ app with status := "error: tiempo invalido (0 o formato incorrecto)" },
            none)) ∧
      (form.minutes = "1:30" →
        ((app.submit_entry env (.ok ()) rr).2).map CreateCall.minutes = some 90) := by
  refine ⟨by decide, by decide, by decide, by decide, by decide, ?_, ?_⟩
  · intro hmne hmzero
    unfold App.submit_entry
    rw [hform]
    dsimp only
    rw [hsel]
    dsimp only
    rw [if_neg (by simp [hdate, hp, hdesc, hmne]), if_pos hmzero]
  · intro hm
    unfold App.submit_entry
    rw [hform]
    dsimp only
    rw [hsel]
    dsimp only
    rw [if_neg (by simp [hdate, hp, hdesc, hm]), if_neg (by simp [hm]; decide)]
    cases rr <;> simp [hm] <;> decide

/-- A filled entry form resolving project 7 with minutes text `1:30`. -/
def filledForm : EntryForm :=
  { date := "2024-03-01"
    description := "x"
    minutes := "1:30"
    is_billable := true
    focused := .Billable
    project_search := "Acme"
    filtered_indices := []
    list_state := none
    selected_project := some { id := 7, name := "Acme", client_name := "" } }

/-- The base session with the filled form open. -/
def formApp : App :=
  { baseApp with entry_form := some filledForm, input_mode := .AddingEntry }

/-- Witness for C3 at a concrete form. -/
theorem C3_witness :
    (parseMinutes "1:30" = 90 ∧ parseMinutes "90" = 90 ∧
      parseMinutes "0:00" = 0 ∧ parseMinutes "0" = 0 ∧ parseMinutes "abc" = 0 ∧
      (filledForm.minutes ≠ "" → parseMinutes filledForm.minutes = 0 →
        formApp.submit_entry { var_token := none, var_base_url := none }
            (.ok ()) (.ok ()) =
          ({ formApp with
              status := "error: tiempo invalido (0 o formato incorrecto)" }, none)) ∧
      (filledForm.minutes = "1:30" →
        ((formApp.submit_entry { var_token := none, var_base_url := none }
            (.ok ()) (.ok ())).2).map CreateCall.minutes = some 90)) ∧
      ((formApp.submit_entry { var_token := none, var_base_url := none }
          (.ok ()) (.ok ())).2).map CreateCall.minutes = some 90 :=
  ⟨C3_minutes_validation formApp _ (.ok ()) (.ok ()) filledForm _
      rfl rfl (by decide) (by decide) (by decide),
   (C3_minutes_validation formApp _ (.ok ()) (.ok ()) filledForm _
      rfl rfl (by decide) (by decide) (by decide)).2.2.2.2.2.2 rfl⟩

/-- C9: with no resolved `selected_project`, `submit_entry` parses the
search text itself as an integer project id — a nonzero parse is submitted
verbatim to the remote create call, while an unparsable text falls back to
id 0 and is rejected by the empty-fields/invalid-project check. -/
theorem C9_project_search_fallback (app : App) (env : Env)
    (cr rr : Except String Unit) (form : EntryForm)
    (hform : app.entry_form = some form)
    (hsel : form.selected_project = none) :
    (∀ n : Int, parseI32 form.project_search = some n → n ≠ 0 →
      form.date ≠ "" → form.description ≠ "" → form.minutes ≠ "" →
      parseMinutes form.minutes ≠ 0 →
      (app.submit_entry env (.ok ()) rr).2 =
        some
          { date := form.date
            project_id := n
            description := form.description
            minutes := parseMinutes form.minutes
            is_billable := form.is_billable
            token := (submitCreds env).1
            base_url := (submitCreds env).2 }) ∧
      (parseI32 form.project_search = none →
        app.submit_entry env cr rr =
          ({ app with status := "error: campos vacios o proyecto invalido" }, none)) := by
  constructor
  · intro n hn hnz hdate hdesc hmne hmz
    unfold App.submit_entry
    rw [hform]
    dsimp only
    rw [hsel]
    dsimp only
    rw [hn]
    rw [if_neg (by simp [hdate, hdesc, hmne, hnz]), if_neg hmz]
    cases rr <;> rfl
  · intro hn
    unfold App.submit_entry
    rw [hform]
    dsimp only
    rw [hsel]
    dsimp only
    rw [hn]
    rw [if_pos (by simp)]

/-- The filled form with an unresolved numeric search text `42`. -/
def numSearchForm : EntryForm :=
  { filledForm with project_search := "42", selected_project := none }

/-- The base session with that form open. -/
def numSearchApp : App :=
  { baseApp with entry_form := some numSearchForm, input_mode := .AddingEntry }

/-- Witness for C9 at a concrete form: the create call carries id 42. -/
theorem C9_witness :
    (numSearchApp.submit_entry { var_token := none, var_base_url := none }
        (.ok ()) (.ok ())).2 =
      some
        { date := numSearchForm.date
          project_id := 42
          description := numSearchForm.description
          minutes := parseMinutes numSearchForm.minutes
          is_billable := numSearchForm.is_billable
          token := (submitCreds { var_token := none, var_base_url := none }).1
          base_url := (submitCreds { var_token := none, var_base_url := none }).2 } :=
  (C9_project_search_fallback numSearchApp _ (.ok ()) (.ok ()) numSearchForm rfl rfl).1
    42 (by decide) (by decide) (by decide) (by decide) (by decide) (by decide)

/-- An environment carrying a token, and a session whose stored config
also carries a (different) non-empty token, with the filled form open. -/
def envTok : Env := { var_token := some "envtok", var_base_url := none }

/-- Session with configured token `cfgtok` and the filled entry form. -/
def cfgApp : App :=
  { baseApp with
      config := { AppConfig.default with var_token := "cfgtok" }
      entry_form := some filledForm
      input_mode := .AddingEntry }

/-- C1 counterexample: a session whose config holds the non-empty token
`cfgtok` submits an entry, yet the remote create call is issued with the
environment token `envtok` — `submit_entry` does not use the configured
token, while `spawn_load` for the same config/environment would. -/
theorem C1_counterexample :
    cfgApp.config.var_token = "cfgtok" ∧
      cfgApp.config.var_token ≠ "" ∧
      ((cfgApp.submit_entry envTok (.ok ()) (.ok ())).2).map CreateCall.token
        = some "envtok" ∧
      "envtok" ≠ "cfgtok" ∧
      (spawnLoadCreds cfgApp.config envTok).1 = "cfgtok" := by
  decide

/-- C1 (amended): `spawn_load`/`spawn_load_projects` resolve credentials
exactly as `get_effective_token`/`get_effective_base_url` (non-empty
config preferred, base-url only when it differs from the hardcoded
default, environment fallback quote-stripped and trimmed, trailing slash
stripped), while every remote create call issued by `submit_entry`
carries the environment-only credentials of `submitCreds`. -/
theorem C1_credential_resolution (config : AppConfig) (env : Env) (app : App)
    (cr rr : Except String Unit) :
    spawnLoadCreds config env
        = (get_effective_token config env,
           stripSlashOnce (get_effective_base_url config env)) ∧
      ∀ call, (app.submit_entry env cr rr).2 = some call →
        call.token = (submitCreds env).1 ∧ call.base_url = (submitCreds env).2 := by
  refine ⟨rfl, ?_⟩
  intro call hcall
  cases happ : app.entry_form with
  | none =>
    unfold App.submit_entry at hcall
    rw [happ] at hcall
    exact Option.noConfusion hcall
  | some form =>
    unfold App.submit_entry at hcall
    rw [happ] at hcall
    dsimp only at hcall
    repeat' split at hcall
    all_goals first
      | exact Option.noConfusion hcall
      | (cases Option.some.inj hcall; exact ⟨rfl, rfl⟩)

/-- Witness for C1 (amended) at the concrete session above. -/
theorem C1_witness :
    (spawnLoadCreds cfgApp.config envTok
        = (get_effective_token cfgApp.config envTok,
           stripSlashOnce (get_effective_base_url cfgApp.config envTok))) ∧
      ({ date := "2024-03-01", project_id := 7, description := "x", minutes := 90,
         is_billable := true, token := "envtok",
         base_url := "https://var.elaniin.com/api" : CreateCall }.token
          = (submitCreds envTok).1 ∧
       { date := "2024-03-01", project_id := 7, description := "x", minutes := 90,
         is_billable := true, token := "envtok",
         base_url := "https://var.elaniin.com/api" : CreateCall }.base_url
          = (submitCreds envTok).2) :=
  ⟨(C1_credential_resolution cfgApp.config envTok cfgApp (.ok ()) (.ok ())).1,
   (C1_credential_resolution cfgApp.config envTok cfgApp (.ok ()) (.ok ())).2
     _ (by decide)⟩

/-- An add-entry form on the ProjectId field with search text `ac` and
the single filtered match highlighted. -/
def c2Form : EntryForm :=
  { date := "2024-03-01", description := "", minutes := "", is_billable := true,
    focused := .ProjectId, project_search := "ac",
    filtered_indices := [0], list_state := some 0, selected_project := none }

/-- A session with one project and that form open. -/
def c2App : App :=
  { baseApp with
      projects := [{ id := 7, name := "Acme", client_name := "" }]
      input_mode := .AddingEntry
      entry_form := some c2Form }

/-- The session after the user confirms the filtered match. -/
def c2Selected : App := (c2App.form_enter envTok (.ok ()) (.ok ())).1

/-- The session after focusing ProjectId again and pushing one character. -/
def c2Edited : App := (c2Selected.form_prev_field).form_input_push 'x'

/-- C2 counterexample: confirming the filtered match resolves
`selected_project`; a subsequent key-driven character push on the
ProjectId field then changes `project_search` to `Acmex` while
`selected_project` still holds the resolved project — the edit does not
clear it, so the filter text and the resolved id diverge. -/
theorem C2_counterexample :
    (c2Selected.entry_form).map (fun f => f.selected_project)
        = some (some { id := 7, name := "Acme", client_name := "" }) ∧
      (c2Edited.entry_form).map (fun f => f.project_search) = some "Acmex" ∧
      (c2Edited.entry_form).map (fun f => f.selected_project)
        = some (some { id := 7, name := "Acme", client_name := "" }) := by
  decide

theorem update_project_filter_selected (app : App) :
    (app.update_project_filter.entry_form).map (fun f => f.selected_project)
      = (app.entry_form).map (fun f => f.selected_project) := by
  unfold App.update_project_filter
  cases h : app.entry_form
  · dsimp only
    rw [h]
  · dsimp only
    repeat' split
    all_goals rfl

theorem update_project_filter_search (app : App) :
    (app.update_project_filter.entry_form).map (fun f => f.project_search)
      = (app.entry_form).map (fun f => f.project_search) := by
  unfold App.update_project_filter
  cases h : app.entry_form
  · dsimp only
    rw [h]
  · dsimp only
    repeat' split
    all_goals rfl

/-- The operations that may legitimately resolve `selected_project`:
confirming the highlighted filtered match (`form_enter`), the MCP
`select_project` action, and the MCP `set_entry_field` action (whose
`project_id` arm resolves a known id). -/
def resolvesSelection : Op → Prop
  | .formEnter _ _ _ => True
  | .setEntryField _ _ => True
  | .selectProject _ _ => True
  | _ => False

theorem ef_set_days (app : App) (ds : List Day) :
    (app.set_days ds).entry_form = app.entry_form := by
  unfold App.set_days
  split <;> rfl

theorem ef_next_day (app : App) : (app.next_day).entry_form = app.entry_form := by
  unfold App.next_day
  split <;> rfl

theorem ef_previous_day (app : App) :
    (app.previous_day).entry_form = app.entry_form := by
  unfold App.previous_day
  split <;> rfl

theorem ef_focus_entries (app : App) :
    (app.focus_entries).entry_form = app.entry_form := by
  unfold App.focus_entries
  repeat' split
  all_goals rfl

theorem ef_next_entry (app : App) : (app.next_entry).entry_form = app.entry_form := by
  unfold App.next_entry
  repeat' split
  all_goals rfl

theorem ef_previous_entry (app : App) :
    (app.previous_entry).entry_form = app.entry_form := by
  unfold App.previous_entry
  repeat' split
  all_goals rfl

theorem ef_input_push (app : App) (c : Char) :
    (app.input_push c).entry_form = app.entry_form := by
  unfold App.input_push
  split <;> rfl

theorem ef_submit_input (today : YMD) (app : App) :
    (app.submit_input today).entry_form = app.entry_form := by
  unfold App.submit_input App.set_days App.refresh
  try dsimp only
  repeat' split
  all_goals rfl

theorem ef_check_background_load (day_res : Option (List Day × String))
    (proj_res : Option (Except String (List Project))) (app : App) :
    (app.check_background_load day_res proj_res).entry_form = app.entry_form := by
  unfold App.check_background_load App.set_days
  try dsimp only
  repeat' split
  all_goals rfl

theorem ef_save_config_form (today : YMD) (save_res : Except String Unit) (app : App) :
    (app.save_config_form today save_res).entry_form = app.entry_form := by
  unfold App.save_config_form App.set_days App.refresh
  try dsimp only
  repeat' split
  all_goals rfl

theorem ef_config_next_field (app : App) :
    (app.config_next_field).entry_form = app.entry_form := by
  unfold App.config_next_field
  repeat' split
  all_goals rfl

theorem ef_config_input (app : App) (c : Char) :
    (app.config_input c).entry_form = app.entry_form := by
  unfold App.config_input
  repeat' split
  all_goals rfl

theorem ef_config_backspace (app : App) :
    (app.config_backspace).entry_form = app.entry_form := by
  unfold App.config_backspace
  repeat' split
  all_goals rfl

theorem ef_config_clear_field (app : App) :
    (app.config_clear_field).entry_form = app.entry_form := by
  unfold App.config_clear_field
  repeat' split
  all_goals rfl

theorem selpres_form_next_field (app : App) :
    ((app.form_next_field).entry_form).map (fun f => f.selected_project)
      = (app.entry_form).map (fun f => f.selected_project) := by
  unfold App.form_next_field
  cases h : app.entry_form
  · dsimp only
    rw [h]
  · rfl

theorem selpres_form_prev_field (app : App) :
    ((app.form_prev_field).entry_form).map (fun f => f.selected_project)
      = (app.entry_form).map (fun f => f.selected_project) := by
  unfold App.form_prev_field
  cases h : app.entry_form
  · dsimp only
    rw [h]
  · rfl

theorem selpres_form_input_push (app : App) (ch : Char) :
    ((app.form_input_push ch).entry_form).map (fun f => f.selected_project)
      = (app.entry_form).map (fun f => f.selected_project) := by
  unfold App.form_input_push
  cases h : app.entry_form
  · dsimp only
    rw [h]
  · dsimp only
    repeat' split
    all_goals first
      | rfl
      | (rw [h])

theorem selpres_form_input_backspace (app : App) :
    ((app.form_input_backspace).entry_form).map (fun f => f.selected_project)
      = (app.entry_form).map (fun f => f.selected_project) := by
  unfold App.form_input_backspace
  cases h : app.entry_form
  · dsimp only
    rw [h]
  · dsimp only
    repeat' split
    all_goals first
      | rfl
      | (rw [h])

theorem selpres_form_nav_up (app : App) :
    ((app.form_nav_up).entry_form).map (fun f => f.selected_project)
      = (app.entry_form).map (fun f => f.selected_project) := by
  unfold App.form_nav_up
  cases h : app.entry_form
  · dsimp only
    rw [h]
  · dsimp only
    repeat' split
    all_goals first
      | rfl
      | (rw [h])

theorem selpres_form_nav_down (app : App) :
    ((app.form_nav_down).entry_form).map (fun f => f.selected_project)
      = (app.entry_form).map (fun f => f.selected_project) := by
  unfold App.form_nav_down
  cases h : app.entry_form
  · dsimp only
    rw [h]
  · dsimp only
    repeat' split
    all_goals first
      | rfl
      | (rw [h])

theorem open_add_entry_ef (today : String) (app : App) :
    ∃ f, (app.open_add_entry today).entry_form = some f ∧
      f.selected_project = none := by
  unfold App.open_add_entry App.update_project_filter
  dsimp only
  repeat' split
  all_goals exact ⟨_, rfl, rfl⟩

/-- C2 (amended): `selected_project` is `Some` only immediately after a
confirmed selection — both form constructors start it at `None`, no
operation other than the confirm/selection actions (`form_enter`,
`select_project`, `set_entry_field`) can make it `Some`, and confirming a
filtered match through `form_enter` resolves it and canonicalizes the
search text; editing `project_search` through the MCP `set_entry_field`
project action clears it back to `None`, but a character push and a
backspace while ProjectId is focused edit `project_search` (recomputing
only the filter) and leave `selected_project` unchanged. -/
theorem C2_selected_project_clearing (today : String) (app : App)
    (v : String) (form : EntryForm) (ch : Char)
    (hform : app.entry_form = some form) (hfoc : form.focused = .ProjectId) :
    (∀ d, (EntryForm.new d).selected_project = none) ∧
      (∀ d pn desc m b,
        (EntryForm.with_entry_data d pn desc m b).selected_project = none) ∧
      (∀ env cr rr idx pidx project,
        form.list_state = some idx → form.filtered_indices[idx]? = some pidx →
        app.projects[pidx]? = some project →
        ((app.form_enter env cr rr).1.entry_form).map (fun f => f.selected_project)
            = some (some project) ∧
          ((app.form_enter env cr rr).1.entry_form).map (fun f => f.project_search)
            = some project.name) ∧
      (((set_entry_field today app
          [("field", .str "project"), ("value", .str v)]).1.entry_form).map
        (fun f => f.selected_project) = some none) ∧
      ((app.form_input_push ch).entry_form).map (fun f => f.selected_project)
          = some form.selected_project ∧
      ((app.form_input_push ch).entry_form).map (fun f => f.project_search)
          = some (form.project_search.push ch) ∧
      ((app.form_input_backspace).entry_form).map (fun f => f.selected_project)
          = some form.selected_project ∧
      ((app.form_input_backspace).entry_form).map (fun f => f.project_search)
          = some (form.project_search.dropRight 1) ∧
      ∀ op app2 p,
        ((applyOp op app2).entry_form).map (fun f => f.selected_project)
            = some (some p) →
        (app2.entry_form).map (fun f => f.selected_project) = some (some p) ∨
          resolvesSelection op := by
  have hfield : parse_required_string_alias
      [("field", JValue.str "project"), ("value", JValue.str v)] ["field", "f"]
        = .ok "project" := rfl
  have hvalue : parse_required_string_alias
      [("field", JValue.str "project"), ("value", JValue.str v)] ["value", "v"]
        = .ok v := rfl
  have hnone : app.entry_form.isNone = false := by rw [hform]; rfl
  have hifapp : (if app.entry_form.isNone then App.open_add_entry today app else app)
      = app := by
    rw [hnone]
    rfl
  refine ⟨fun d => rfl, fun d pn desc m b => rfl, ?_, ?_, ?_, ?_, ?_, ?_, ?_⟩
  · intro env cr rr idx pidx project hls hfi hpr
    have hpicked : (if form.focused = FormField.ProjectId then
          form.list_state.bind fun idx =>
            (form.filtered_indices[idx]?).bind fun project_idx =>
              app.projects[project_idx]?
        else none) = some project := by
      rw [if_pos hfoc, hls]
      dsimp only [Option.bind]
      rw [hfi]
      dsimp only [Option.bind]
      rw [hpr]
    unfold App.form_enter
    rw [hform]
    dsimp only
    rw [hpicked]
    exact ⟨rfl, rfl⟩
  · unfold set_entry_field
    dsimp only
    rw [hifapp]
    rw [hfield]
    dsimp only
    rw [if_neg (by decide), if_pos (by decide), hvalue]
    dsimp only
    rw [hform]
    dsimp only
    rw [update_project_filter_selected]
    rfl
  · unfold App.form_input_push
    rw [hform]
    dsimp only
    rw [hfoc]
    dsimp only
    rw [update_project_filter_selected]
    rfl
  · unfold App.form_input_push
    rw [hform]
    dsimp only
    rw [hfoc]
    dsimp only
    rw [update_project_filter_search]
    rfl
  · unfold App.form_input_backspace
    rw [hform]
    dsimp only
    rw [hfoc]
    dsimp only
    rw [update_project_filter_selected]
    rfl
  · unfold App.form_input_backspace
    rw [hform]
    dsimp only
    rw [hfoc]
    dsimp only
    rw [update_project_filter_search]
    rfl
  · intro op app2 p hp
    cases op with
    | formEnter env cr rr => exact Or.inr trivial
    | setEntryField t a => exact Or.inr trivial
    | selectProject t a => exact Or.inr trivial
    | setDays ds =>
      dsimp only [applyOp] at hp
      rw [ef_set_days] at hp
      exact Or.inl hp
    | nextDay =>
      dsimp only [applyOp] at hp
      rw [ef_next_day] at hp
      exact Or.inl hp
    | prevDay =>
      dsimp only [applyOp] at hp
      rw [ef_previous_day] at hp
      exact Or.inl hp
    | focusEntries =>
      dsimp only [applyOp] at hp
      rw [ef_focus_entries] at hp
      exact Or.inl hp
    | focusDays => exact Or.inl hp
    | nextEntry =>
      dsimp only [applyOp] at hp
      rw [ef_next_entry] at hp
      exact Or.inl hp
    | prevEntry =>
      dsimp only [applyOp] at hp
      rw [ef_previous_entry] at hp
      exact Or.inl hp
    | openDuplicateEntry =>
      dsimp only [applyOp] at hp
      unfold App.open_duplicate_entry at hp
      try dsimp only at hp
      repeat' split at hp
      all_goals first
        | exact Or.inl hp
        | (rw [update_project_filter_selected] at hp
           exact Option.noConfusion (Option.some.inj hp))
    | refresh => exact Or.inl hp
    | startInput => exact Or.inl hp
    | cancelInput => exact Or.inl hp
    | submitInput t =>
      dsimp only [applyOp] at hp
      rw [ef_submit_input] at hp
      exact Or.inl hp
    | inputPush c =>
      dsimp only [applyOp] at hp
      rw [ef_input_push] at hp
      exact Or.inl hp
    | inputBackspace => exact Or.inl hp
    | checkBackgroundLoad dr pr =>
      dsimp only [applyOp] at hp
      rw [ef_check_background_load] at hp
      exact Or.inl hp
    | openAddEntry t =>
      dsimp only [applyOp] at hp
      obtain ⟨f, hf, hsel⟩ := open_add_entry_ef t app2
      rw [hf] at hp
      have h2 : f.selected_project = some p := Option.some.inj hp
      rw [hsel] at h2
      exact Option.noConfusion h2
    | closeAddEntry => exact Or.inl (Option.noConfusion hp)
    | formNextField =>
      dsimp only [applyOp] at hp
      rw [selpres_form_next_field] at hp
      exact Or.inl hp
    | formPrevField =>
      dsimp only [applyOp] at hp
      rw [selpres_form_prev_field] at hp
      exact Or.inl hp
    | formPush c =>
      dsimp only [applyOp] at hp
      rw [selpres_form_input_push] at hp
      exact Or.inl hp
    | formBackspace =>
      dsimp only [applyOp] at hp
      rw [selpres_form_input_backspace] at hp
      exact Or.inl hp
    | updateProjectFilter =>
      dsimp only [applyOp] at hp
      rw [update_project_filter_selected] at hp
      exact Or.inl hp
    | formNavUp =>
      dsimp only [applyOp] at hp
      rw [selpres_form_nav_up] at hp
      exact Or.inl hp
    | formNavDown =>
      dsimp only [applyOp] at hp
      rw [selpres_form_nav_down] at hp
      exact Or.inl hp
    | submitEntry env cr rr =>
      dsimp only [applyOp] at hp
      unfold App.submit_entry at hp
      try dsimp only at hp
      repeat' split at hp
      all_goals first
        | exact Or.inl hp
        | exact Or.inl (Option.noConfusion hp)
    | openConfig env => exact Or.inl hp
    | closeConfig => exact Or.inl hp
    | saveConfigForm t sr =>
      dsimp only [applyOp] at hp
      rw [ef_save_config_form] at hp
      exact Or.inl hp
    | configNextField =>
      dsimp only [applyOp] at hp
      rw [ef_config_next_field] at hp
      exact Or.inl hp
    | configInput c =>
      dsimp only [applyOp] at hp
      rw [ef_config_input] at hp
      exact Or.inl hp
    | configBackspace =>
      dsimp only [applyOp] at hp
      rw [ef_config_backspace] at hp
      exact Or.inl hp
    | configClearField =>
      dsimp only [applyOp] at hp
      rw [ef_config_clear_field] at hp
      exact Or.inl hp
    | toggleBillable t =>
      dsimp only [applyOp] at hp
      unfold toggle_billable at hp
      dsimp only at hp
      cases happ : app2.entry_form with
      | some fm =>
        have hif : (if app2.entry_form.isNone then App.open_add_entry t app2 else app2)
            = app2 := by
          rw [happ]
          rfl
        rw [hif, happ] at hp
        dsimp only at hp
        exact Or.inl hp
      | none =>
        have hif : (if app2.entry_form.isNone then App.open_add_entry t app2 else app2)
            = App.open_add_entry t app2 := by
          rw [happ]
          rfl
        rw [hif] at hp
        obtain ⟨f, hf, hsel⟩ := open_add_entry_ef t app2
        rw [hf] at hp
        dsimp only at hp
        have h2 : f.selected_project = some p := Option.some.inj hp
        rw [hsel] at h2
        exact Option.noConfusion h2

/-- Witness for C2 (amended) at the concrete session. -/
theorem C2_witness :
    (∀ d, (EntryForm.new d).selected_project = none) ∧
      (∀ d pn desc m b,
        (EntryForm.with_entry_data d pn desc m b).selected_project = none) ∧
      (∀ env cr rr idx pidx project,
        c2Form.list_state = some idx → c2Form.filtered_indices[idx]? = some pidx →
        c2App.projects[pidx]? = some project →
        ((c2App.form_enter env cr rr).1.entry_form).map (fun f => f.selected_project)
            = some (some project) ∧
          ((c2App.form_enter env cr rr).1.entry_form).map (fun f => f.project_search)
            = some project.name) ∧
      (((set_entry_field "2024-01-01" c2App
          [("field", .str "project"), ("value", .str "ac")]).1.entry_form).map
        (fun f => f.selected_project) = some none) ∧
      ((c2App.form_input_push 'x').entry_form).map (fun f => f.selected_project)
          = some c2Form.selected_project ∧
      ((c2App.form_input_push 'x').entry_form).map (fun f => f.project_search)
          = some (c2Form.project_search.push 'x') ∧
      ((c2App.form_input_backspace).entry_form).map (fun f => f.selected_project)
          = some c2Form.selected_project ∧
      ((c2App.form_input_backspace).entry_form).map (fun f => f.project_search)
          = some (c2Form.project_search.dropRight 1) ∧
      ∀ op app2 p,
        ((applyOp op app2).entry_form).map (fun f => f.selected_project)
            = some (some p) →
        (app2.entry_form).map (fun f => f.selected_project) = some (some p) ∨
          resolvesSelection op :=
  C2_selected_project_clearing "2024-01-01" c2App "ac" c2Form 'x' rfl rfl

/-! ## Object lookup/insert lemmas for the snapshot claims -/

theorem find_map_replace (fields : List (String × JValue)) (key : String) (v : JValue)
    (h : fields.any (fun kv => kv.1 = key) = true) :
    ((fields.map fun kv => if kv.1 = key then (key, v) else kv).find?
        (fun kv => kv.1 = key)) = some (key, v) := by
  induction fields with
  | nil => simp at h
  | cons kv rest ih =>
    by_cases hk : kv.1 = key
    · rw [List.map_cons, if_pos hk, List.find?_cons_of_pos _ (by simp)]
    · rw [List.map_cons, if_neg hk, List.find?_cons_of_neg _ (by simp [hk])]
      apply ih
      simp only [List.any_cons, Bool.or_eq_true, decide_eq_true_eq] at h
      rcases h with h | h
      · exact absurd h hk
      · exact h

theorem find_append_last (fields : List (String × JValue)) (key : String) (v : JValue)
    (h : fields.any (fun kv => kv.1 = key) = false) :
    ((fields ++ [(key, v)]).find? (fun kv => kv.1 = key)) = some (key, v) := by
  induction fields with
  | nil => rw [List.nil_append, List.find?_cons_of_pos _ (by simp)]
  | cons kv rest ih =>
    simp only [List.any_cons, Bool.or_eq_false_iff, decide_eq_false_iff_not] at h
    rw [List.cons_append, List.find?_cons_of_neg _ (by simp [h.1])]
    exact ih h.2

theorem jInsert_obj_eq (fields : List (String × JValue)) (key : String) (v : JValue) :
    jInsert (.obj fields) key v =
      if (fields.any fun kv => kv.1 = key) = true then
        .obj (fields.map fun kv => if kv.1 = key then (key, v) else kv)
      else .obj (fields ++ [(key, v)]) := rfl

theorem jGet_obj (fields : List (String × JValue)) (key : String) :
    jGet (.obj fields) key = ((fields.find? fun kv => kv.1 = key).map fun kv => kv.2) :=
  rfl

theorem jGet_jInsert_self (fields : List (String × JValue)) (key : String) (v : JValue) :
    jGet (jInsert (.obj fields) key v) key = some v := by
  rw [jInsert_obj_eq]
  by_cases h : (fields.any fun kv => kv.1 = key) = true
  · rw [if_pos h, jGet_obj, find_map_replace fields key v h]
    rfl
  · rw [if_neg h, jGet_obj, find_append_last fields key v
      (by simp only [Bool.not_eq_true] at h; exact h)]
    rfl

theorem find_map_replace_ne (fields : List (String × JValue)) (key key' : String)
    (v : JValue) (hne : key' ≠ key) :
    ((fields.map fun kv => if kv.1 = key then (key, v) else kv).find?
        (fun kv => kv.1 = key'))
      = fields.find? (fun kv => kv.1 = key') := by
  induction fields with
  | nil => simp
  | cons kv rest ih =>
    by_cases hk : kv.1 = key
    · rw [List.map_cons, if_pos hk,
        List.find?_cons_of_neg _ (by simp; exact fun hh => hne hh.symm),
        List.find?_cons_of_neg _ (by simp [hk]; exact fun hh => hne hh.symm)]
      exact ih
    · rw [List.map_cons, if_neg hk]
      by_cases hk' : kv.1 = key'
      · rw [List.find?_cons_of_pos _ (by simp [hk']),
          List.find?_cons_of_pos _ (by simp [hk'])]
      · rw [List.find?_cons_of_neg _ (by simp [hk']),
          List.find?_cons_of_neg _ (by simp [hk'])]
        exact ih

theorem find_append_ne (fields : List (String × JValue)) (key key' : String)
    (v : JValue) (hne : key' ≠ key) :
    ((fields ++ [(key, v)]).find? (fun kv => kv.1 = key'))
      = fields.find? (fun kv => kv.1 = key') := by
  induction fields with
  | nil =>
    rw [List.nil_append, List.find?_cons_of_neg _ (by simp; exact fun hh => hne hh.symm)]
  | cons kv rest ih =>
    rw [List.cons_append]
    by_cases hk' : kv.1 = key'
    · rw [List.find?_cons_of_pos _ (by simp [hk']),
        List.find?_cons_of_pos _ (by simp [hk'])]
    · rw [List.find?_cons_of_neg _ (by simp [hk']),
        List.find?_cons_of_neg _ (by simp [hk'])]
      exact ih

theorem jGet_jInsert_ne (fields : List (String × JValue)) (key key' : String)
    (v : JValue) (hne : key' ≠ key) :
    jGet (jInsert (.obj fields) key v) key' = jGet (.obj fields) key' := by
  rw [jInsert_obj_eq]
  by_cases h : (fields.any fun kv => kv.1 = key) = true
  · rw [if_pos h, jGet_obj, jGet_obj, find_map_replace_ne fields key key' v hne]
  · rw [if_neg h, jGet_obj, jGet_obj, find_append_ne fields key key' v hne]

theorem jInsert_obj (fields : List (String × JValue)) (key : String) (v : JValue) :
    ∃ fields', jInsert (.obj fields) key v = .obj fields' := by
  rw [jInsert_obj_eq]
  by_cases h : (fields.any fun kv => kv.1 = key) = true
  · rw [if_pos h]
    exact ⟨_, rfl⟩
  · rw [if_neg h]
    exact ⟨_, rfl⟩

theorem full_snap_get (tf : List (String × JValue)) (sdv sev efv cfv dsv : JValue) :
    jGet (jInsert (jInsert (jInsert (jInsert (jInsert (.obj tf) "sd" sdv) "se" sev)
        "ef" efv) "cf" cfv) "ds" dsv) "ds" = some dsv ∧
      jGet (jInsert (jInsert (jInsert (jInsert (jInsert (.obj tf) "sd" sdv) "se" sev)
        "ef" efv) "cf" cfv) "ds" dsv) "dc" = jGet (.obj tf) "dc" := by
  obtain ⟨f1, e1⟩ := jInsert_obj tf "sd" sdv
  obtain ⟨f2, e2⟩ := jInsert_obj f1 "se" sev
  obtain ⟨f3, e3⟩ := jInsert_obj f2 "ef" efv
  obtain ⟨f4, e4⟩ := jInsert_obj f3 "cf" cfv
  constructor
  · rw [e1, e2, e3, e4, jGet_jInsert_self]
  · rw [e1, e2, e3, e4, jGet_jInsert_ne f4 "ds" "dc" dsv (by decide), ← e4,
      jGet_jInsert_ne f3 "cf" "dc" cfv (by decide), ← e3,
      jGet_jInsert_ne f2 "ef" "dc" efv (by decide), ← e2,
      jGet_jInsert_ne f1 "se" "dc" sev (by decide), ← e1,
      jGet_jInsert_ne tf "sd" "dc" sdv (by decide)]

theorem build_tiny_eq (sid : String) (app : App) :
    build_tiny_snapshot sid app = .obj
      [("sid", .str sid), ("im", .str (input_mode_code app.input_mode)),
       ("fc", .str (focus_code app.focus)), ("dr", .str app.date_range.label),
       ("di", jOptNat app.day_state), ("ei", jOptNat app.entry_state),
       ("dc", .int app.days.length), ("pc", .int app.projects.length),
       ("st", .str (clip_text app.status 120))] := rfl

/-- C7: a full snapshot with `max_days=1` and `max_entries_per_day=1` of a
session with 5 populated days carries exactly one day object with exactly
one entry object, while that day's `ec` field holds the true unclipped
entry count and `dc` holds the true day count 5 (and the option parsers
accept `view=full`, `max_days=1`, `max_entries_per_day=1` as given). -/
theorem C7_full_snapshot_clipping (app : App) (sid : String) (d : Day)
    (rest : List Day) (snap : JValue)
    (hdays : app.days = d :: rest) (hlen : app.days.length = 5)
    (hpop : ∀ day ∈ app.days, day.entries ≠ [])
    (hsnap : build_full_snapshot sid app 1 1 = some snap) :
    parse_limit (some (.int 1)) 14 120 = .ok 1 ∧
      parse_limit (some (.int 1)) 20 300 = .ok 1 ∧
      parse_snapshot_view (some (.str "full")) .Normal = .ok .Full ∧
      jGet snap "ds" = some (.arr [dayJson 1 d]) ∧
      jGet (dayJson 1 d) "ec" = some (.int d.entries.length) ∧
      jGet (dayJson 1 d) "e" = some (.arr ((d.entries.take 1).map entryJson)) ∧
      ((d.entries.take 1).map entryJson).length = 1 ∧
      jGet snap "dc" = some (.int 5) := by
  have htake : (app.days.take 1).map (dayJson 1) = [dayJson 1 d] := by
    rw [hdays]
    rfl
  have hlength : ((d.entries.take 1).map entryJson).length = 1 := by
    have hdne : d.entries ≠ [] := hpop d (hdays ▸ List.mem_cons_self d rest)
    cases he : d.entries with
    | nil => exact absurd he hdne
    | cons e es => rfl
  unfold build_full_snapshot at hsnap
  cases hn : build_normal_snapshot sid app with
  | none =>
    rw [hn] at hsnap
    exact absurd hsnap (by simp)
  | some normal =>
    rw [hn] at hsnap
    have hsnapeq : jInsert normal "ds" (.arr ((app.days.take 1).map (dayJson 1)))
        = snap := Option.some.inj hsnap
    have hshape :
        jGet snap "ds" = some (.arr ((app.days.take 1).map (dayJson 1))) ∧
          jGet snap "dc" = some (.int app.days.length) := by
      unfold build_normal_snapshot at hn
      dsimp only at hn
      cases hcf : app.config_form with
      | none =>
        rw [hcf] at hn
        dsimp only at hn
        have hnormal := Option.some.inj hn
        rw [← hsnapeq, ← hnormal, build_tiny_eq]
        exact ⟨(full_snap_get _ _ _ _ _ _).1,
          ((full_snap_get _ _ _ _ _ _).2.trans rfl)⟩
      | some cform =>
        rw [hcf] at hn
        dsimp only at hn
        cases hm : mask_secret cform.token with
        | none =>
          rw [hm] at hn
          exact absurd hn (by simp)
        | some masked =>
          rw [hm] at hn
          dsimp only at hn
          have hnormal := Option.some.inj hn
          rw [← hsnapeq, ← hnormal, build_tiny_eq]
          exact ⟨(full_snap_get _ _ _ _ _ _).1,
            ((full_snap_get _ _ _ _ _ _).2.trans rfl)⟩
    refine ⟨rfl, rfl, rfl, ?_, rfl, rfl, hlength, ?_⟩
    · rw [hshape.1, htake]
    · rw [hshape.2, hlen]
      try rfl

/-- One-entry day for the snapshot witness. -/
def w7Day (ds : String) : Day :=
  { date := ds, entries := [{ project := "Acme", hours := 1, note := "n" }] }

/-- A session with five populated days. -/
def w7App : App :=
  { baseApp with
      days := [w7Day "2024-03-05", w7Day "2024-03-04", w7Day "2024-03-03",
               w7Day "2024-03-02", w7Day "2024-03-01"]
      day_state := some 0 }

/-- Witness for C7 at the concrete five-day session. -/
theorem C7_witness :
    parse_limit (some (.int 1)) 14 120 = .ok 1 ∧
      parse_limit (some (.int 1)) 20 300 = .ok 1 ∧
      parse_snapshot_view (some (.str "full")) .Normal = .ok .Full ∧
      jGet ((build_full_snapshot "s" w7App 1 1).getD .null) "ds"
        = some (.arr [dayJson 1 (w7Day "2024-03-05")]) ∧
      jGet (dayJson 1 (w7Day "2024-03-05")) "ec"
        = some (.int (w7Day "2024-03-05").entries.length) ∧
      jGet (dayJson 1 (w7Day "2024-03-05")) "e"
        = some (.arr (((w7Day "2024-03-05").entries.take 1).map entryJson)) ∧
      (((w7Day "2024-03-05").entries.take 1).map entryJson).length = 1 ∧
      jGet ((build_full_snapshot "s" w7App 1 1).getD .null) "dc" = some (.int 5) :=
  C7_full_snapshot_clipping w7App "s" (w7Day "2024-03-05")
    [w7Day "2024-03-04", w7Day "2024-03-03", w7Day "2024-03-02", w7Day "2024-03-01"]
    ((build_full_snapshot "s" w7App 1 1).getD .null) rfl rfl (by decide) rfl

/-- C8: a request whose method is not one of the supported methods gets a
JSON-RPC error with code `-32601` when it carries an id, and a request
without an id (a notification) gets no response whatever its method. -/
theorem C8_rpc_dispatch {σ : Type} (encode : JValue → String)
    (tool : σ → JValue → σ × Except String JValue) (state : σ) (req : RpcRequest) :
    (req.method ∉ supportedMethods → ∀ i, req.id = some i →
      (handle_rpc_request encode tool state req).2.response
        = some (.error i (-32601) ("Metodo no soportado: " ++ req.method))) ∧
      (req.id = none →
        (handle_rpc_request encode tool state req).2.response = none) := by
  unfold handle_rpc_request
  split
  · next h =>
    exact ⟨fun hns i hid => absurd (by rw [h]; decide) hns,
      fun hid => by rw [hid]; all_goals rfl⟩
  · next h =>
    exact ⟨fun hns i hid => absurd (by rw [h]; decide) hns, fun hid => rfl⟩
  · next h =>
    exact ⟨fun hns i hid => absurd (by rw [h]; decide) hns,
      fun hid => by rw [hid]; all_goals rfl⟩
  · next h =>
    exact ⟨fun hns i hid => absurd (by rw [h]; decide) hns,
      fun hid => by rw [hid]; all_goals rfl⟩
  · next h =>
    exact ⟨fun hns i hid => absurd (by rw [h]; decide) hns,
      fun hid => by rw [hid]⟩
  · next h =>
    exact ⟨fun hns i hid => absurd (by rw [h]; decide) hns,
      fun hid => by rw [hid]; all_goals rfl⟩
  · next h =>
    exact ⟨fun hns i hid => absurd (by rw [h]; decide) hns, fun hid => rfl⟩
  · refine ⟨fun hns i hid => ?_, fun hid => ?_⟩
    · rw [hid]
      rfl
    · rw [hid]
      rfl

/-- Witness for C8 at a concrete unknown-method request and a concrete
notification. -/
theorem C8_witness :
    ((handle_rpc_request (fun _ => "") (fun s _ => (s, .ok (.obj []))) (0 : Nat)
        { id := some (.int 1), method := "foobar", params := .null }).2.response
      = some (.error (.int 1) (-32601) ("Metodo no soportado: " ++ "foobar"))) ∧
      ((handle_rpc_request (fun _ => "") (fun s _ => (s, .ok (.obj []))) (0 : Nat)
          { id := none, method := "tools/call", params := .null }).2.response = none) :=
  ⟨(C8_rpc_dispatch (fun _ => "") (fun s _ => (s, .ok (.obj []))) 0
      { id := some (.int 1), method := "foobar", params := .null }).1
      (by decide) (.int 1) rfl,
   (C8_rpc_dispatch (fun _ => "") (fun s _ => (s, .ok (.obj []))) 0
      { id := none, method := "tools/call", params := .null }).2 rfl⟩

/-- A session whose open config form holds the token `€€` (two three-byte
characters, six bytes in total). -/
def euroApp : App :=
  { baseApp with
      config_form := some
        { token := "€€", base_url := "", default_range := "", theme := ""
          focused := .Token }
      input_mode := .Configuring }

/-- C10: `mask_secret` is not panic-free — on the token `€€` the slice
start `len - min 4 len = 2` falls inside the first three-byte character,
so the byte slice panics (modelled as `none`) and a normal-verbosity
snapshot of a session with that token open in its config form aborts;
for an empty token it returns the empty string and for an ASCII token the
`***`-masked 4-byte suffix, as the claim describes. -/
theorem C10_mask_secret_panics :
    mask_secret "€€" = none ∧
      build_normal_snapshot "s" euroApp = none ∧
      (build_full_snapshot "s" euroApp 14 20).isNone = true ∧
      mask_secret "" = some "" ∧
      mask_secret "abcdef" = some "***cdef" ∧
      mask_secret "abc" = some "***abc" :=
  ⟨rfl, rfl, rfl, rfl, rfl, rfl⟩

end Vartui
